import Mathlib

/-
Verification of the `welltrack` wellness-tracker core against its
specification.  The development shallowly embeds the JavaScript source
(`src/server.js` and the React client in `src/unnamed/part_000`):

* strings are Lean `String`s; the host's per-character case mappings are
  modelled by `Char.toLower` / `Char.toUpper`;
* JSON documents are an inductive `Json` value; `JSON.parse ∘ JSON.stringify`
  round-tripping of well-formed values is modelled by storing `Json` values
  (a file may instead hold `malformed` content, on which parsing throws);
* network calls are modelled by an environment record giving each endpoint's
  outcome (`none` = network/HTTP/parse failure);
* the debounced auto-save effect is modelled as a discrete-time event
  interpreter over timestamped mutation events.

Definitions follow the source line by line; source locations are cited in
the doc comments.
-/

namespace Welltrack

/-! ## Character-level helpers

`Char.toLower`/`Char.toUpper` (the model of the host case mappings) act on
the ASCII letter ranges and are the identity elsewhere.  The facts below
drive the title-casing idempotence proof. -/

theorem toNat_ofNat_valid (n : Nat) (h : n.isValidChar) :
    (Char.ofNat n).toNat = n := by
  rw [Char.ofNat, dif_pos h]
  rfl

theorem toNat_toLower (c : Char) :
    c.toLower.toNat = if 65 ≤ c.toNat ∧ c.toNat ≤ 90 then c.toNat + 32 else c.toNat := by
  unfold Char.toLower
  by_cases h : 65 ≤ c.toNat ∧ c.toNat ≤ 90
  · have hge : c.toNat ≥ 65 := h.1
    have hle : c.toNat ≤ 90 := h.2
    rw [if_pos ⟨hge, hle⟩, if_pos h]
    exact toNat_ofNat_valid _ (Or.inl (by omega))
  · rw [if_neg (fun hc => h ⟨hc.1, hc.2⟩), if_neg h]

theorem toNat_toUpper (c : Char) :
    c.toUpper.toNat = if 97 ≤ c.toNat ∧ c.toNat ≤ 122 then c.toNat - 32 else c.toNat := by
  unfold Char.toUpper
  by_cases h : 97 ≤ c.toNat ∧ c.toNat ≤ 122
  · have hge : c.toNat ≥ 97 := h.1
    have hle : c.toNat ≤ 122 := h.2
    rw [if_pos ⟨hge, hle⟩, if_pos h]
    exact toNat_ofNat_valid _ (Or.inl (by omega))
  · rw [if_neg (fun hc => h ⟨hc.1, hc.2⟩), if_neg h]

theorem char_toNat_injective {a b : Char} (h : a.toNat = b.toNat) : a = b := by
  have := congrArg Char.ofNat h
  rwa [Char.ofNat_toNat, Char.ofNat_toNat] at this

theorem toLower_toLower (c : Char) : c.toLower.toLower = c.toLower := by
  apply char_toNat_injective
  rw [toNat_toLower, toNat_toLower c]
  by_cases h : 65 ≤ c.toNat ∧ c.toNat ≤ 90
  · rw [if_pos h, if_neg (by omega)]
  · rw [if_neg h, if_neg h]

theorem toLower_toUpper_toLower (c : Char) :
    c.toLower.toUpper.toLower = c.toLower := by
  apply char_toNat_injective
  by_cases h : 65 ≤ c.toNat ∧ c.toNat ≤ 90
  · have e1 : c.toLower.toNat = c.toNat + 32 := by rw [toNat_toLower, if_pos h]
    have e2 : c.toLower.toUpper.toNat = c.toNat := by
      rw [toNat_toUpper, e1, if_pos ⟨by omega, by omega⟩]
      omega
    have e3 : c.toLower.toUpper.toLower.toNat = c.toNat + 32 := by
      rw [toNat_toLower, e2, if_pos h]
    rw [e3, e1]
  · have e1 : c.toLower.toNat = c.toNat := by rw [toNat_toLower, if_neg h]
    by_cases h2 : 97 ≤ c.toNat ∧ c.toNat ≤ 122
    · have e2 : c.toLower.toUpper.toNat = c.toNat - 32 := by
        rw [toNat_toUpper, e1, if_pos h2]
      have e3 : c.toLower.toUpper.toLower.toNat = c.toNat := by
        rw [toNat_toLower, e2, if_pos ⟨by omega, by omega⟩]
        omega
      rw [e3, e1]
    · have e2 : c.toLower.toUpper.toNat = c.toNat := by
        rw [toNat_toUpper, e1, if_neg h2]
      have e3 : c.toLower.toUpper.toLower.toNat = c.toNat := by
        rw [toNat_toLower, e2, if_neg h]
      rw [e3, e1]

/-! ## Title-casing (`toTitleCase`, src/unnamed/part_000 lines 227-229 and
src/server.js lines 172-174)

`str.toLowerCase().replace(/(?:^|\s)\S/g, c => c.toUpperCase())`: lowercase
the whole string, then uppercase every non-whitespace character that stands
at the start of the string or immediately after a whitespace character. -/

/-- The replacement scan: `atB` records whether the current position is the
start of the string or immediately follows whitespace. -/
def tcScan (atB : Bool) : List Char → List Char
  | [] => []
  | c :: cs =>
    if c.isWhitespace then c :: tcScan true cs
    else (if atB then c.toUpper else c) :: tcScan false cs

/-- `toTitleCase` from the source: lowercase everything, then uppercase
word-initial characters. -/
def toTitleCase (s : String) : String :=
  String.mk (tcScan true (s.data.map Char.toLower))

theorem tcScan_cons_ws (atB : Bool) (c : Char) (cs : List Char)
    (hw : c.isWhitespace = true) :
    tcScan atB (c :: cs) = c :: tcScan true cs := by
  simp [tcScan, hw]

theorem tcScan_cons_nws (atB : Bool) (c : Char) (cs : List Char)
    (hw : c.isWhitespace = false) :
    tcScan atB (c :: cs) = (if atB then c.toUpper else c) :: tcScan false cs := by
  simp [tcScan, hw]

/-- Rescanning does not change the lowercase projection: for a list that is
fully lowercased, lowercasing the scan's output returns the input. -/
theorem map_toLower_tcScan (atB : Bool) (l : List Char)
    (hl : ∀ c ∈ l, c.toLower = c) :
    (tcScan atB l).map Char.toLower = l := by
  induction l generalizing atB with
  | nil => rfl
  | cons c cs ih =>
    have hc : c.toLower = c := hl c (List.mem_cons_self c cs)
    have hcs : ∀ x ∈ cs, x.toLower = x := fun x hx => hl x (List.mem_cons_of_mem c hx)
    by_cases hw : c.isWhitespace = true
    · rw [tcScan_cons_ws atB c cs hw, List.map_cons, hc, ih true hcs]
    · rw [tcScan_cons_nws atB c cs (by simpa using hw), List.map_cons, ih false hcs]
      congr 1
      cases atB with
      | false => exact hc
      | true =>
        show c.toUpper.toLower = c
        conv_lhs => rw [← hc]
        rw [toLower_toUpper_toLower, hc]

theorem data_toTitleCase (s : String) :
    (toTitleCase s).data = tcScan true (s.data.map Char.toLower) := rfl

/-- C9: title-casing is idempotent: `toTitleCase (toTitleCase s) = toTitleCase s`
for every string `s`.  (Purity is immediate: `toTitleCase` is a function of
its argument.) -/
theorem toTitleCase_idempotent (s : String) :
    toTitleCase (toTitleCase s) = toTitleCase s := by
  have hlow : ∀ c ∈ s.data.map Char.toLower, c.toLower = c := by
    intro c hc
    rcases List.mem_map.mp hc with ⟨d, _, rfl⟩
    exact toLower_toLower d
  apply String.ext
  show tcScan true ((toTitleCase s).data.map Char.toLower)
      = tcScan true (s.data.map Char.toLower)
  rw [data_toTitleCase, map_toLower_tcScan true _ hlow]

/-! ## Side-effect records and the client lookup tables
(src/unnamed/part_000 lines 74-225) -/

/-- A normalized side-effect record `{name, description}`. -/
structure SideEffect where
  name : String
  description : String
deriving DecidableEq, Repr

/-- JavaScript `a || b` on a possibly-missing string: a missing value
(`none`) and the empty string are falsy. -/
def jsOrStr (a : Option String) (b : String) : String :=
  match a with
  | none => b
  | some s => if s = "" then b else s

/-- `EXCLUDED_TERMS` (src/unnamed/part_000 lines 74-83; the identical set
appears in src/server.js lines 120-129). -/
def EXCLUDED_TERMS : List String :=
  ["drug ineffective", "off label use", "product substitution issue",
   "therapeutic response unexpected", "drug interaction", "drug exposure during pregnancy",
   "intentional product misuse", "product use issue", "no adverse event",
   "condition aggravated", "death", "completed suicide", "self injury",
   "drug dependence", "drug abuse", "intentional overdose", "accidental overdose",
   "product quality issue", "product complaint", "therapeutic response decreased",
   "therapeutic response increased", "medication error", "wrong drug administered",
   "drug dose omission", "inappropriate schedule of drug administration"]

/-- The client `DESCRIPTIONS` table (src/unnamed/part_000 lines 86-147). -/
def DESCRIPTIONS : List (String × String) :=
  [("nausea", "A queasy feeling in the stomach that may cause an urge to vomit."),
   ("headache", "Pain or pressure in the head, ranging from mild to severe."),
   ("dizziness", "A sensation of lightheadedness or feeling unsteady on your feet."),
   ("fatigue", "Persistent tiredness or exhaustion that doesn't improve with rest."),
   ("diarrhoea", "Frequent loose or watery bowel movements."),
   ("diarrhea", "Frequent loose or watery bowel movements."),
   ("vomiting", "Forceful emptying of the stomach contents through the mouth."),
   ("insomnia", "Difficulty falling asleep, staying asleep, or waking too early."),
   ("somnolence", "Excessive drowsiness or sleepiness during the day."),
   ("dry mouth", "Reduced saliva production causing a parched feeling in the mouth."),
   ("constipation", "Infrequent or difficult bowel movements."),
   ("abdominal pain", "Discomfort or cramping felt between the chest and pelvis."),
   ("rash", "A noticeable change in the color or texture of the skin."),
   ("anxiety", "Feelings of worry, nervousness, or unease."),
   ("weight increased", "Noticeable gain in body weight since starting medication."),
   ("weight decreased", "Noticeable loss in body weight since starting medication."),
   ("tremor", "Involuntary shaking or trembling, often in the hands."),
   ("decreased appetite", "Reduced desire to eat or feeling full very quickly."),
   ("increased appetite", "Stronger or more frequent urges to eat."),
   ("blood pressure increased", "Higher than normal force of blood against artery walls."),
   ("palpitations", "Awareness of your heartbeat, which may feel fast or fluttering."),
   ("blurred vision", "Difficulty seeing clearly, as though looking through fog."),
   ("muscle pain", "Aching or soreness in the muscles."),
   ("arthralgia", "Pain in one or more joints without visible swelling."),
   ("myalgia", "Muscle aches or soreness, often felt as a dull pain."),
   ("dyspepsia", "Indigestion — discomfort or burning in the upper stomach area."),
   ("back pain", "Aching or stiffness felt in the lower, middle, or upper back."),
   ("upper respiratory tract infection", "Common cold-like symptoms: sore throat, runny nose, cough."),
   ("cough", "Repeated reflex to clear the airways, may be dry or productive."),
   ("pruritus", "Persistent itching of the skin that causes an urge to scratch."),
   ("hyperhidrosis", "Excessive sweating beyond what is needed to cool the body."),
   ("oedema", "Swelling caused by fluid buildup, often in feet, ankles, or hands."),
   ("edema", "Swelling caused by fluid buildup, often in feet, ankles, or hands."),
   ("peripheral edema", "Swelling in the lower legs, ankles, or feet due to fluid retention."),
   ("depression", "Persistent feelings of sadness, hopelessness, or loss of interest."),
   ("sexual dysfunction", "Changes in sexual desire, arousal, or ability to reach climax."),
   ("erectile dysfunction", "Difficulty achieving or maintaining an erection."),
   ("libido decreased", "Reduced interest in or desire for sexual activity."),
   ("flatulence", "Excess gas in the digestive tract causing bloating or passing gas."),
   ("nasal congestion", "Stuffy or blocked nose making it difficult to breathe through the nostrils."),
   ("rhinitis", "Inflammation of the nasal passages causing congestion or runny nose."),
   ("urinary tract infection", "Infection in the bladder or urethra causing painful or frequent urination."),
   ("alopecia", "Thinning or loss of hair from the scalp or body."),
   ("feeling abnormal", "A general sense that something feels off or different in your body."),
   ("malaise", "A general feeling of discomfort, unease, or being unwell."),
   ("asthenia", "Overall weakness or lack of energy making daily activities harder."),
   ("pain in extremity", "Aching or discomfort in the arms, legs, hands, or feet."),
   ("paraesthesia", "Tingling, numbness, or a 'pins and needles' sensation in the skin."),
   ("hypoaesthesia", "Reduced sensitivity to touch or sensation in part of the body."),
   ("tachycardia", "Resting heart rate faster than normal, above ~100 beats per minute."),
   ("hot flush", "Sudden feeling of warmth spreading through the body, often with redness."),
   ("dyspnoea", "Shortness of breath or difficulty breathing."),
   ("chest pain", "Discomfort, pressure, or sharp pain felt in the chest area."),
   ("irritability", "Feeling easily annoyed, frustrated, or agitated."),
   ("mood swings", "Rapid or unpredictable changes in emotional state."),
   ("drug hypersensitivity", "An allergic-type reaction to a medication."),
   ("urticaria", "Raised, itchy welts on the skin, commonly called hives."),
   ("fall", "Loss of balance leading to an unintended drop to the ground."),
   ("amnesia", "Partial or total memory loss, often short-term."),
   ("confusional state", "Difficulty thinking clearly, feeling disoriented or muddled.")]

/-- `FALLBACK_SIDE_EFFECTS` (src/unnamed/part_000 lines 150-225): built-in
fallback of common medications mapped to side-effect term lists. -/
def FALLBACK_SIDE_EFFECTS : List (String × List String) :=
  [("sertraline", ["nausea", "diarrhea", "insomnia", "dry mouth", "fatigue", "dizziness", "headache", "decreased appetite", "hyperhidrosis", "tremor", "sexual dysfunction", "somnolence"]),
   ("zoloft", ["nausea", "diarrhea", "insomnia", "dry mouth", "fatigue", "dizziness", "headache", "decreased appetite", "hyperhidrosis", "tremor", "sexual dysfunction", "somnolence"]),
   ("fluoxetine", ["nausea", "headache", "insomnia", "anxiety", "somnolence", "diarrhea", "decreased appetite", "dry mouth", "tremor", "dizziness", "asthenia", "hyperhidrosis"]),
   ("prozac", ["nausea", "headache", "insomnia", "anxiety", "somnolence", "diarrhea", "decreased appetite", "dry mouth", "tremor", "dizziness", "asthenia", "hyperhidrosis"]),
   ("escitalopram", ["nausea", "headache", "insomnia", "somnolence", "diarrhea", "dry mouth", "dizziness", "fatigue", "constipation", "hyperhidrosis", "libido decreased", "sexual dysfunction"]),
   ("lexapro", ["nausea", "headache", "insomnia", "somnolence", "diarrhea", "dry mouth", "dizziness", "fatigue", "constipation", "hyperhidrosis", "libido decreased", "sexual dysfunction"]),
   ("citalopram", ["nausea", "dry mouth", "somnolence", "insomnia", "diarrhea", "headache", "dizziness", "tremor", "hyperhidrosis", "fatigue", "decreased appetite", "constipation"]),
   ("celexa", ["nausea", "dry mouth", "somnolence", "insomnia", "diarrhea", "headache", "dizziness", "tremor", "hyperhidrosis", "fatigue", "decreased appetite", "constipation"]),
   ("paroxetine", ["nausea", "somnolence", "dry mouth", "headache", "constipation", "dizziness", "insomnia", "diarrhea", "asthenia", "tremor", "hyperhidrosis", "sexual dysfunction"]),
   ("paxil", ["nausea", "somnolence", "dry mouth", "headache", "constipation", "dizziness", "insomnia", "diarrhea", "asthenia", "tremor", "hyperhidrosis", "sexual dysfunction"]),
   ("venlafaxine", ["nausea", "headache", "dizziness", "somnolence", "dry mouth", "insomnia", "constipation", "hyperhidrosis", "asthenia", "anxiety", "blurred vision", "tremor"]),
   ("effexor", ["nausea", "headache", "dizziness", "somnolence", "dry mouth", "insomnia", "constipation", "hyperhidrosis", "asthenia", "anxiety", "blurred vision", "tremor"]),
   ("duloxetine", ["nausea", "headache", "dry mouth", "fatigue", "somnolence", "constipation", "dizziness", "insomnia", "diarrhea", "decreased appetite", "hyperhidrosis", "abdominal pain"]),
   ("cymbalta", ["nausea", "headache", "dry mouth", "fatigue", "somnolence", "constipation", "dizziness", "insomnia", "diarrhea", "decreased appetite", "hyperhidrosis", "abdominal pain"]),
   ("bupropion", ["headache", "dry mouth", "nausea", "insomnia", "dizziness", "constipation", "tremor", "anxiety", "tachycardia", "hyperhidrosis", "rash", "abdominal pain"]),
   ("wellbutrin", ["headache", "dry mouth", "nausea", "insomnia", "dizziness", "constipation", "tremor", "anxiety", "tachycardia", "hyperhidrosis", "rash", "abdominal pain"]),
   ("mirtazapine", ["somnolence", "increased appetite", "weight increased", "dry mouth", "dizziness", "constipation", "asthenia", "fatigue", "peripheral edema", "headache", "abnormal dreams", "confusional state"]),
   ("remeron", ["somnolence", "increased appetite", "weight increased", "dry mouth", "dizziness", "constipation", "asthenia", "fatigue", "peripheral edema", "headache", "abnormal dreams", "confusional state"]),
   ("trazodone", ["somnolence", "headache", "dry mouth", "dizziness", "nausea", "fatigue", "constipation", "blurred vision", "nasal congestion", "hyperhidrosis", "confusion", "palpitations"]),
   ("amitriptyline", ["somnolence", "dry mouth", "constipation", "dizziness", "weight increased", "blurred vision", "headache", "nausea", "fatigue", "urinary retention", "tachycardia", "tremor"]),
   ("alprazolam", ["somnolence", "dizziness", "fatigue", "headache", "dry mouth", "constipation", "nausea", "irritability", "decreased appetite", "confusional state", "insomnia", "blurred vision"]),
   ("xanax", ["somnolence", "dizziness", "fatigue", "headache", "dry mouth", "constipation", "nausea", "irritability", "decreased appetite", "confusional state", "insomnia", "blurred vision"]),
   ("lorazepam", ["somnolence", "dizziness", "fatigue", "headache", "confusional state", "nausea", "amnesia", "depression", "constipation", "blurred vision", "asthenia", "irritability"]),
   ("ativan", ["somnolence", "dizziness", "fatigue", "headache", "confusional state", "nausea", "amnesia", "depression", "constipation", "blurred vision", "asthenia", "irritability"]),
   ("clonazepam", ["somnolence", "dizziness", "fatigue", "depression", "headache", "confusional state", "nausea", "amnesia", "constipation", "decreased appetite", "irritability", "insomnia"]),
   ("klonopin", ["somnolence", "dizziness", "fatigue", "depression", "headache", "confusional state", "nausea", "amnesia", "constipation", "decreased appetite", "irritability", "insomnia"]),
   ("diazepam", ["somnolence", "fatigue", "dizziness", "headache", "confusional state", "amnesia", "nausea", "constipation", "depression", "blurred vision", "asthenia", "tremor"]),
   ("valium", ["somnolence", "fatigue", "dizziness", "headache", "confusional state", "amnesia", "nausea", "constipation", "depression", "blurred vision", "asthenia", "tremor"]),
   ("quetiapine", ["somnolence", "dizziness", "headache", "dry mouth", "weight increased", "constipation", "fatigue", "dyspepsia", "tachycardia", "peripheral edema", "blurred vision", "increased appetite"]),
   ("seroquel", ["somnolence", "dizziness", "headache", "dry mouth", "weight increased", "constipation", "fatigue", "dyspepsia", "tachycardia", "peripheral edema", "blurred vision", "increased appetite"]),
   ("aripiprazole", ["headache", "nausea", "insomnia", "anxiety", "somnolence", "constipation", "dizziness", "vomiting", "fatigue", "blurred vision", "weight increased", "tremor"]),
   ("abilify", ["headache", "nausea", "insomnia", "anxiety", "somnolence", "constipation", "dizziness", "vomiting", "fatigue", "blurred vision", "weight increased", "tremor"]),
   ("lamotrigine", ["headache", "nausea", "rash", "dizziness", "insomnia", "somnolence", "fatigue", "blurred vision", "vomiting", "tremor", "back pain", "rhinitis"]),
   ("lamictal", ["headache", "nausea", "rash", "dizziness", "insomnia", "somnolence", "fatigue", "blurred vision", "vomiting", "tremor", "back pain", "rhinitis"]),
   ("lithium", ["nausea", "tremor", "diarrhea", "vomiting", "dizziness", "fatigue", "headache", "weight increased", "dry mouth", "tachycardia", "polyuria", "thirst"]),
   ("gabapentin", ["somnolence", "dizziness", "fatigue", "headache", "nausea", "peripheral edema", "weight increased", "blurred vision", "dry mouth", "constipation", "tremor", "ataxia"]),
   ("neurontin", ["somnolence", "dizziness", "fatigue", "headache", "nausea", "peripheral edema", "weight increased", "blurred vision", "dry mouth", "constipation", "tremor", "ataxia"]),
   ("pregabalin", ["dizziness", "somnolence", "headache", "peripheral edema", "dry mouth", "weight increased", "blurred vision", "fatigue", "constipation", "nausea", "tremor", "back pain"]),
   ("lyrica", ["dizziness", "somnolence", "headache", "peripheral edema", "dry mouth", "weight increased", "blurred vision", "fatigue", "constipation", "nausea", "tremor", "back pain"]),
   ("metformin", ["diarrhea", "nausea", "vomiting", "abdominal pain", "flatulence", "decreased appetite", "headache", "dyspepsia", "asthenia", "fatigue", "dizziness", "constipation"]),
   ("lisinopril", ["headache", "dizziness", "cough", "fatigue", "nausea", "diarrhea", "hypotension", "rash", "chest pain", "dyspnoea", "back pain", "asthenia"]),
   ("amlodipine", ["peripheral edema", "headache", "dizziness", "fatigue", "nausea", "flushing", "palpitations", "somnolence", "abdominal pain", "dyspnoea", "chest pain", "back pain"]),
   ("atorvastatin", ["headache", "myalgia", "arthralgia", "diarrhea", "nausea", "back pain", "pain in extremity", "insomnia", "urinary tract infection", "dyspepsia", "nasopharyngitis", "fatigue"]),
   ("lipitor", ["headache", "myalgia", "arthralgia", "diarrhea", "nausea", "back pain", "pain in extremity", "insomnia", "urinary tract infection", "dyspepsia", "nasopharyngitis", "fatigue"]),
   ("omeprazole", ["headache", "diarrhea", "nausea", "abdominal pain", "flatulence", "constipation", "vomiting", "dizziness", "rash", "cough", "back pain", "fatigue"]),
   ("prilosec", ["headache", "diarrhea", "nausea", "abdominal pain", "flatulence", "constipation", "vomiting", "dizziness", "rash", "cough", "back pain", "fatigue"]),
   ("pantoprazole", ["headache", "diarrhea", "nausea", "abdominal pain", "flatulence", "constipation", "vomiting", "dizziness", "arthralgia", "insomnia", "rash", "fatigue"]),
   ("levothyroxine", ["headache", "fatigue", "palpitations", "insomnia", "tremor", "anxiety", "diarrhea", "weight decreased", "hyperhidrosis", "hot flush", "alopecia", "nausea"]),
   ("synthroid", ["headache", "fatigue", "palpitations", "insomnia", "tremor", "anxiety", "diarrhea", "weight decreased", "hyperhidrosis", "hot flush", "alopecia", "nausea"]),
   ("metoprolol", ["fatigue", "dizziness", "headache", "diarrhea", "nausea", "bradycardia", "dyspnoea", "depression", "insomnia", "peripheral edema", "chest pain", "back pain"]),
   ("losartan", ["dizziness", "headache", "fatigue", "back pain", "diarrhea", "cough", "nausea", "chest pain", "dyspnoea", "peripheral edema", "insomnia", "arthralgia"]),
   ("hydrochlorothiazide", ["dizziness", "headache", "fatigue", "nausea", "muscle cramps", "hypokalaemia", "hyperuricaemia", "dyspepsia", "diarrhea", "back pain", "blurred vision", "rash"]),
   ("montelukast", ["headache", "upper respiratory tract infection", "cough", "abdominal pain", "diarrhea", "nausea", "fatigue", "rash", "insomnia", "dizziness", "fever", "irritability"]),
   ("singulair", ["headache", "upper respiratory tract infection", "cough", "abdominal pain", "diarrhea", "nausea", "fatigue", "rash", "insomnia", "dizziness", "fever", "irritability"]),
   ("ibuprofen", ["nausea", "headache", "dizziness", "dyspepsia", "abdominal pain", "diarrhea", "constipation", "vomiting", "rash", "flatulence", "edema", "fatigue"]),
   ("advil", ["nausea", "headache", "dizziness", "dyspepsia", "abdominal pain", "diarrhea", "constipation", "vomiting", "rash", "flatulence", "edema", "fatigue"]),
   ("acetaminophen", ["nausea", "headache", "rash", "vomiting", "abdominal pain", "diarrhea", "fatigue", "dizziness", "pruritus", "constipation", "insomnia", "dyspepsia"]),
   ("tylenol", ["nausea", "headache", "rash", "vomiting", "abdominal pain", "diarrhea", "fatigue", "dizziness", "pruritus", "constipation", "insomnia", "dyspepsia"]),
   ("aspirin", ["nausea", "dyspepsia", "abdominal pain", "diarrhea", "headache", "dizziness", "vomiting", "rash", "fatigue", "pruritus", "tinnitus", "constipation"]),
   ("adderall", ["decreased appetite", "insomnia", "headache", "dry mouth", "nausea", "anxiety", "dizziness", "tachycardia", "irritability", "abdominal pain", "weight decreased", "palpitations"]),
   ("methylphenidate", ["decreased appetite", "insomnia", "headache", "nausea", "abdominal pain", "anxiety", "dizziness", "irritability", "tachycardia", "weight decreased", "dry mouth", "vomiting"]),
   ("ritalin", ["decreased appetite", "insomnia", "headache", "nausea", "abdominal pain", "anxiety", "dizziness", "irritability", "tachycardia", "weight decreased", "dry mouth", "vomiting"]),
   ("concerta", ["decreased appetite", "insomnia", "headache", "nausea", "abdominal pain", "anxiety", "dizziness", "irritability", "tachycardia", "weight decreased", "dry mouth", "vomiting"]),
   ("lisdexamfetamine", ["decreased appetite", "insomnia", "dry mouth", "headache", "nausea", "irritability", "anxiety", "dizziness", "weight decreased", "diarrhea", "tachycardia", "vomiting"]),
   ("vyvanse", ["decreased appetite", "insomnia", "dry mouth", "headache", "nausea", "irritability", "anxiety", "dizziness", "weight decreased", "diarrhea", "tachycardia", "vomiting"]),
   ("atomoxetine", ["nausea", "decreased appetite", "headache", "dry mouth", "insomnia", "dizziness", "constipation", "fatigue", "vomiting", "abdominal pain", "somnolence", "irritability"]),
   ("strattera", ["nausea", "decreased appetite", "headache", "dry mouth", "insomnia", "dizziness", "constipation", "fatigue", "vomiting", "abdominal pain", "somnolence", "irritability"]),
   ("prednisone", ["weight increased", "insomnia", "mood swings", "increased appetite", "headache", "nausea", "edema", "fatigue", "dizziness", "dyspepsia", "muscle pain", "hyperhidrosis"]),
   ("amoxicillin", ["diarrhea", "nausea", "rash", "vomiting", "headache", "abdominal pain", "pruritus", "urticaria", "fatigue", "dizziness", "dyspepsia", "flatulence"]),
   ("azithromycin", ["diarrhea", "nausea", "abdominal pain", "vomiting", "headache", "rash", "fatigue", "dizziness", "pruritus", "flatulence", "dyspepsia", "constipation"]),
   ("zithromax", ["diarrhea", "nausea", "abdominal pain", "vomiting", "headache", "rash", "fatigue", "dizziness", "pruritus", "flatulence", "dyspepsia", "constipation"]),
   ("ciprofloxacin", ["nausea", "diarrhea", "headache", "rash", "vomiting", "abdominal pain", "dizziness", "arthralgia", "insomnia", "dyspepsia", "fatigue", "myalgia"]),
   ("warfarin", ["haemorrhage", "nausea", "rash", "fatigue", "headache", "dizziness", "abdominal pain", "pruritus", "alopecia", "vomiting", "diarrhea", "chest pain"]),
   ("coumadin", ["haemorrhage", "nausea", "rash", "fatigue", "headache", "dizziness", "abdominal pain", "pruritus", "alopecia", "vomiting", "diarrhea", "chest pain"])]

/-! ## Fallback construction (`buildFromFallback`, src/unnamed/part_000
lines 231-239) -/

/-- `String.toLowerCase()` of the host, as a character map. -/
def strToLower (s : String) : String :=
  String.mk (s.data.map Char.toLower)

/-- `String.trim()` of the host: drop whitespace from both ends. -/
def strTrim (s : String) : String :=
  String.mk (((s.data.dropWhile Char.isWhitespace).reverse.dropWhile Char.isWhitespace).reverse)

/-- `buildFromFallback`: look up the lowercased, trimmed medication name in
the static table; `null` (here `none`) when absent, else the term list
normalized to `{name: toTitleCase term, description: DESCRIPTIONS[term] || ""}`. -/
def buildFromFallback (medName : String) : Option (List SideEffect) :=
  match FALLBACK_SIDE_EFFECTS.lookup (strTrim (strToLower medName)) with
  | none => none
  | some terms =>
      some (terms.map fun term => ⟨toTitleCase term, jsOrStr (DESCRIPTIONS.lookup term) ""⟩)

/-! ## Pharmaceutical-suffix stripping (src/unnamed/part_000 line 285 and
src/server.js line 204)

`medName.replace(/\s*(hcl|hydrochloride|sulfate|sodium|er|xr|cr|sr)\s*/gi, "").trim()`:
a global, case-insensitive scan that deletes every leftmost occurrence of
optional whitespace, one of the suffix tokens, and optional whitespace. -/

/-- The alternation's branches, in source order (matching is case-insensitive,
so each branch is compared against the lowercased input). -/
def SUFFIX_ALTS : List (List Char) :=
  ["hcl", "hydrochloride", "sulfate", "sodium", "er", "xr", "cr", "sr"].map String.data

/-- Case-insensitive literal match: if lowering the head of `l` spells `p`,
return the remainder. -/
def ciMatch : List Char → List Char → Option (List Char)
  | [], rest => some rest
  | _, [] => none
  | p :: ps, c :: cs => if c.toLower = p then ciMatch ps cs else none

/-- Try the alternation branches in order (JS alternation is first-match). -/
def tryAlts : List (List Char) → List Char → Option (List Char)
  | [], _ => none
  | a :: as, l =>
    match ciMatch a l with
    | some r => some r
    | none => tryAlts as l

/-- A match of `\s*(alt)\s*` anchored at the head of `l`: greedy leading
whitespace, one alternation branch, greedy trailing whitespace.  Returns the
remainder after the match. -/
def matchAt (l : List Char) : Option (List Char) :=
  match tryAlts SUFFIX_ALTS (l.dropWhile Char.isWhitespace) with
  | none => none
  | some r => some (r.dropWhile Char.isWhitespace)

theorem ciMatch_length {p l r : List Char} (h : ciMatch p l = some r) :
    r.length + p.length = l.length := by
  induction p generalizing l with
  | nil =>
    cases l <;> simp [ciMatch] at h <;> simp [h]
  | cons x xs ih =>
    cases l with
    | nil => simp [ciMatch] at h
    | cons c cs =>
      simp only [ciMatch] at h
      by_cases hc : c.toLower = x
      · rw [if_pos hc] at h
        have := ih h
        simp [List.length_cons]
        omega
      · rw [if_neg hc] at h
        exact absurd h (by simp)

theorem tryAlts_length {alts : List (List Char)} {l r : List Char}
    (halts : ∀ a ∈ alts, a ≠ []) (h : tryAlts alts l = some r) :
    r.length < l.length := by
  induction alts with
  | nil => simp [tryAlts] at h
  | cons a as ih =>
    simp only [tryAlts] at h
    cases hm : ciMatch a l with
    | some r2 =>
      rw [hm] at h
      cases h
      have hlen := ciMatch_length hm
      have hane : a ≠ [] := halts a (List.mem_cons_self a as)
      have : 0 < a.length := List.length_pos.mpr hane
      omega
    | none =>
      rw [hm] at h
      exact ih (fun x hx => halts x (List.mem_cons_of_mem a hx)) h

theorem length_dropWhile_le (p : Char → Bool) (l : List Char) :
    (l.dropWhile p).length ≤ l.length := by
  induction l with
  | nil => simp
  | cons c cs ih =>
    by_cases h : p c <;> simp [List.dropWhile_cons, h] <;> omega

theorem matchAt_length_lt {l r : List Char} (h : matchAt l = some r) :
    r.length < l.length := by
  unfold matchAt at h
  cases hm : tryAlts SUFFIX_ALTS (l.dropWhile Char.isWhitespace) with
  | none => rw [hm] at h; exact absurd h (by simp)
  | some r2 =>
    rw [hm] at h
    cases h
    have h1 : r2.length < (l.dropWhile Char.isWhitespace).length :=
      tryAlts_length (by decide) hm
    have h2 : (l.dropWhile Char.isWhitespace).length ≤ l.length :=
      length_dropWhile_le _ _
    have h3 : (r2.dropWhile Char.isWhitespace).length ≤ r2.length :=
      length_dropWhile_le _ _
    omega

/-- The global replace scan, on fuel (structural recursion so that it
computes in the kernel): delete each leftmost match and continue after it;
otherwise keep the character and move one position right.  Each step
strictly shrinks the list (`matchAt_length_lt`), so `length l` fuel always
suffices. -/
def stripScanFuel : Nat → List Char → List Char
  | 0, l => l
  | _, [] => []
  | fuel + 1, c :: cs =>
    match matchAt (c :: cs) with
    | some rest => stripScanFuel fuel rest
    | none => c :: stripScanFuel fuel cs

def stripScan (l : List Char) : List Char :=
  stripScanFuel l.length l

/-- The simplified medication name: suffix-strip, then `.trim()`. -/
def simplifyName (s : String) : String :=
  strTrim (String.mk (stripScan s.data))

/-! ## `normalizeSideEffects` (src/unnamed/part_000 lines 300-310)

Stored/proxied side-effect items are either legacy bare strings or
structured `{name, description}` objects.  A structured item whose `name`
is the empty string is falsy in JS, so the code falls through to
`String(item)`, which prints an object as `"[object Object]"`. -/

/-- An element of a side-effect array as the client receives/stores it. -/
inductive RawItem where
  | str (s : String)
  | obj (name : String) (description : String)
deriving DecidableEq, Repr

/-- One item of `normalizeSideEffects`'s `map`. -/
def normItem : RawItem → SideEffect
  | .str s => ⟨toTitleCase s, jsOrStr (DESCRIPTIONS.lookup (strToLower s)) ""⟩
  | .obj n d => if n ≠ "" then ⟨n, d⟩ else ⟨"[object Object]", ""⟩

/-- `normalizeSideEffects`: map each item to a record, then drop records
with a falsy, `"undefined"` or `"null"` name. -/
def normalizeSideEffects (arr : List RawItem) : List SideEffect :=
  (arr.map normItem).filter fun it =>
    !(it.name == "") && !(it.name == "undefined") && !(it.name == "null")

/-! ## The openFDA tier (src/unnamed/part_000 lines 241-261)

The network and JSON layers are abstracted into an environment: a call
either fails (network error, non-ok HTTP status, unparseable body —
`none`) or yields the `results` term list of the response. -/

/-- `term.replace(/s$/, "")`: remove one trailing `s` if present. -/
def stripTrailingS (t : String) : String :=
  if t.data.getLast? = some 's' then String.mk t.data.dropLast else t

/-- Term post-processing of a successful openFDA response (lines 253-260):
lowercase, drop excluded regulatory terms, cap at 12, normalize with a
description looked up for the term and then for the term with a trailing
`s` stripped. -/
def fdaProcess (results : List String) : List SideEffect :=
  (((results.map strToLower).filter fun t => !EXCLUDED_TERMS.contains t).take 12).map
    fun term =>
      ⟨toTitleCase term,
       jsOrStr (DESCRIPTIONS.lookup term)
         (jsOrStr (DESCRIPTIONS.lookup (stripTrailingS term)) "")⟩

/-- The outcomes of the client's two network collaborators.
`proxy name = some items` models an ok `/api/side-effects` response whose
body's `sideEffects` is `items`; `fda name = some results` models an ok,
well-formed openFDA response whose `results` field lists those terms.
`none` is any network/HTTP/parse failure. -/
structure ResolveEnv where
  proxy : String → Option (List RawItem)
  fda : String → Option (List String)

/-- `fetchSideEffectsFromFDA`: throws (`none`) on call failure or an empty
`results` list, else returns the processed terms. -/
def fetchSideEffectsFromFDA (env : ResolveEnv) (medName : String) : Option (List SideEffect) :=
  match env.fda medName with
  | none => none
  | some results => if results.length = 0 then none else some (fdaProcess results)

/-- Tiers 2-5 of `fetchSideEffects` (src/unnamed/part_000 lines 277-296):
direct openFDA call, simplified-name retry, static fallback, sentinel. -/
def fetchTiers (env : ResolveEnv) (medName : String) : List SideEffect :=
  match fetchSideEffectsFromFDA env medName with
  | some l => l
  | none =>
    match (if simplifyName medName ≠ medName
            then fetchSideEffectsFromFDA env (simplifyName medName) else none) with
    | some l => l
    | none =>
      match (buildFromFallback medName).orElse
          (fun _ => buildFromFallback (simplifyName medName)) with
      | some l => l
      | none =>
          [⟨"No data found",
            "Could not find side effects for \"" ++ medName ++ "\". Try the generic drug name."⟩]

/-- `fetchSideEffects` (src/unnamed/part_000 lines 263-297): try the server
proxy first (success = ok response with a non-empty `sideEffects` list,
normalized), then the remaining tiers. -/
def fetchSideEffects (env : ResolveEnv) (medName : String) : List SideEffect :=
  match env.proxy medName with
  | some items => if 0 < items.length then normalizeSideEffects items else fetchTiers env medName
  | none => fetchTiers env medName

/-- C3: when the proxy tier, the direct openFDA tier and the simplified-name
retry all fail, the resolver returns the static-table entry for the
lowercased trimmed name normalized (title-cased name plus looked-up
description), else the entry for the simplified name, else exactly the
one-element sentinel whose description embeds the searched name. -/
theorem fetchSideEffects_fallback (env : ResolveEnv) (medName : String)
    (h1 : env.proxy medName = none ∨ env.proxy medName = some [])
    (h2 : fetchSideEffectsFromFDA env medName = none)
    (h3 : simplifyName medName = medName ∨
      fetchSideEffectsFromFDA env (simplifyName medName) = none) :
    (∀ terms, FALLBACK_SIDE_EFFECTS.lookup (strTrim (strToLower medName)) = some terms →
      fetchSideEffects env medName
        = terms.map fun term => ⟨toTitleCase term, jsOrStr (DESCRIPTIONS.lookup term) ""⟩) ∧
    (FALLBACK_SIDE_EFFECTS.lookup (strTrim (strToLower medName)) = none →
      ∀ terms,
        FALLBACK_SIDE_EFFECTS.lookup (strTrim (strToLower (simplifyName medName))) = some terms →
        fetchSideEffects env medName
          = terms.map fun term => ⟨toTitleCase term, jsOrStr (DESCRIPTIONS.lookup term) ""⟩) ∧
    (FALLBACK_SIDE_EFFECTS.lookup (strTrim (strToLower medName)) = none →
      FALLBACK_SIDE_EFFECTS.lookup (strTrim (strToLower (simplifyName medName))) = none →
      fetchSideEffects env medName
        = [⟨"No data found",
            "Could not find side effects for \"" ++ medName ++ "\". Try the generic drug name."⟩]) := by
  have hmain : fetchSideEffects env medName = fetchTiers env medName := by
    unfold fetchSideEffects
    rcases h1 with h1 | h1 <;> rw [h1]
    simp
  have htier3 :
      (if simplifyName medName ≠ medName
        then fetchSideEffectsFromFDA env (simplifyName medName) else none) = none := by
    rcases h3 with h3 | h3
    · rw [if_neg (by simp [h3])]
    · by_cases hne : simplifyName medName ≠ medName
      · rw [if_pos hne]; exact h3
      · rw [if_neg hne]
  have htiers : fetchTiers env medName
      = match (buildFromFallback medName).orElse
          (fun _ => buildFromFallback (simplifyName medName)) with
        | some l => l
        | none =>
            [⟨"No data found",
              "Could not find side effects for \"" ++ medName ++ "\". Try the generic drug name."⟩] := by
    unfold fetchTiers
    rw [h2, htier3]
  refine ⟨?_, ?_, ?_⟩
  · intro terms hterms
    rw [hmain, htiers]
    have : buildFromFallback medName
        = some (terms.map fun term => ⟨toTitleCase term, jsOrStr (DESCRIPTIONS.lookup term) ""⟩) := by
      unfold buildFromFallback
      rw [hterms]
    rw [this]
    rfl
  · intro hnone terms hterms
    rw [hmain, htiers]
    have hb1 : buildFromFallback medName = none := by
      unfold buildFromFallback
      rw [hnone]
    have hb2 : buildFromFallback (simplifyName medName)
        = some (terms.map fun term => ⟨toTitleCase term, jsOrStr (DESCRIPTIONS.lookup term) ""⟩) := by
      unfold buildFromFallback
      rw [hterms]
    rw [hb1, Option.orElse]
    simp only [hb2]
  · intro hn1 hn2
    rw [hmain, htiers]
    have hb1 : buildFromFallback medName = none := by
      unfold buildFromFallback
      rw [hn1]
    have hb2 : buildFromFallback (simplifyName medName) = none := by
      unfold buildFromFallback
      rw [hn2]
    rw [hb1, Option.orElse]
    simp only [hb2]

/-- Witness for C3 at a concrete input: with every network call failing,
`"sertraline"` resolves to its static-table entry normalized. -/
theorem fetchSideEffects_fallback_witness :
    fetchSideEffects ⟨fun _ => none, fun _ => none⟩ "sertraline"
      = (["nausea", "diarrhea", "insomnia", "dry mouth", "fatigue", "dizziness", "headache",
          "decreased appetite", "hyperhidrosis", "tremor", "sexual dysfunction",
          "somnolence"].map fun term =>
            ⟨toTitleCase term, jsOrStr (DESCRIPTIONS.lookup term) ""⟩) :=
  (fetchSideEffects_fallback ⟨fun _ => none, fun _ => none⟩ "sertraline"
    (Or.inl rfl) rfl (Or.inr rfl)).1 _ (by decide)

/-! ## Medication records and the aggregation engine
(src/unnamed/part_000 lines 385-413)

A medication's `endDate` is the empty string when blank
(`endDate: form.endDate || ""`, line 781); a medication is active on the
selected date `D` iff `!m.endDate || m.endDate >= D` (line 386) — JS string
comparison of ISO dates, modelled by the lexicographic string order. -/

/-- JS `<` on strings: lexicographic comparison of the code-unit sequences,
modelled on the character lists. -/
def charsLt : List Char → List Char → Bool
  | [], [] => false
  | [], _ :: _ => true
  | _ :: _, [] => false
  | a :: as, b :: bs =>
    if a.toNat < b.toNat then true
    else if b.toNat < a.toNat then false
    else charsLt as bs

/-- JS `a < b` on strings. -/
def strLtB (a b : String) : Bool := charsLt a.data b.data

/-- JS `a >= b` on strings is the negation of `a < b`. -/
def strGeB (a b : String) : Bool := !(strLtB a b)

structure Med where
  id : String
  name : String
  dosage : String
  startDate : String
  endDate : String
  sideEffects : List RawItem
deriving DecidableEq, Repr

/-- `activeMeds` (lines 385-388). -/
def activeMeds (meds : List Med) (D : String) : List Med :=
  meds.filter fun m => m.endDate == "" || strGeB m.endDate D

/-- The name the aggregation extracts from a record (line 396):
`typeof se === "string" ? se : (se && se.name ? se.name : String(se))`. -/
def seName : RawItem → String
  | .str s => s
  | .obj n _ => if n ≠ "" then n else "[object Object]"

/-- The description the aggregation extracts from a record (line 397):
`typeof se === "object" && se !== null ? (se.description || "") : ""`. -/
def seDesc : RawItem → String
  | .str _ => ""
  | .obj _ d => d

/-- One aggregated entry: `{meds, count, description}` (line 399). -/
structure AggEntry where
  meds : List String
  count : Nat
  description : String
deriving DecidableEq, Repr

/-- Keep-the-longest-description update (lines 402-405). -/
def descUpd (old d : String) : String :=
  if d ≠ "" ∧ old.length < d.length then d else old

/-- Insert one record into the accumulator object: JS objects keep string
keys in insertion order, so a fresh key is appended at the end and an
existing key is updated in place (lines 399-406). -/
def insertEntry (n mname d : String) : List (String × AggEntry) → List (String × AggEntry)
  | [] => [(n, ⟨[mname], 1, d⟩)]
  | (k, e) :: rest =>
    if k = n then
      (k, ⟨e.meds ++ [mname], e.count + 1, descUpd e.description d⟩) :: rest
    else
      (k, e) :: insertEntry n mname d rest

/-- Process one side-effect record of medication `mname`: skip it when the
extracted name is falsy or the string `"undefined"` (line 398). -/
def stepSE (mname : String) (acc : List (String × AggEntry)) (se : RawItem) :
    List (String × AggEntry) :=
  if seName se = "" ∨ seName se = "undefined" then acc
  else insertEntry (seName se) mname (seDesc se) acc

/-- The accumulation over all active medications (lines 392-407), in
iteration order. -/
def aggMap (meds : List Med) (D : String) : List (String × AggEntry) :=
  (activeMeds meds D).foldl (fun acc m => m.sideEffects.foldl (stepSE m.name) acc) []

/-- The model of `a[0].localeCompare(b[0])`: codepoint-lexicographic
three-way string comparison (negative/zero/positive). -/
def strCmpInt (a b : String) : Int :=
  if strLtB a b then -1 else if strLtB b a then 1 else 0

/-- The sort comparator (lines 409-412): count descending, ties by name. -/
def seCmp (x y : String × AggEntry) : Int :=
  if y.2.count ≠ x.2.count then (y.2.count : Int) - (x.2.count : Int)
  else strCmpInt x.1 y.1

def seLe (x y : String × AggEntry) : Bool :=
  decide (seCmp x y ≤ 0)

/-- Stable insertion of one element into a sorted run. -/
def insertSorted (x : String × AggEntry) : List (String × AggEntry) → List (String × AggEntry)
  | [] => [x]
  | y :: ys => if seLe x y then x :: y :: ys else y :: insertSorted x ys

/-- Stable insertion sort by the comparator.  JS `Array.prototype.sort`
guarantees exactly a stable order consistent with the comparator, which for
a consistent comparator determines the output uniquely; insertion sort is
such a sort. -/
def sortSE : List (String × AggEntry) → List (String × AggEntry)
  | [] => []
  | x :: xs => insertSorted x (sortSE xs)

/-- `allSideEffects` (lines 391-413): accumulate, then sort. -/
def allSideEffects (meds : List Med) (D : String) : List (String × AggEntry) :=
  sortSE (aggMap meds D)

theorem insertSorted_perm (x : String × AggEntry) :
    ∀ (l : List (String × AggEntry)), List.Perm (insertSorted x l) (x :: l)
  | [] => List.Perm.refl _
  | y :: ys => by
    unfold insertSorted
    by_cases h : seLe x y
    ·   rw [if_pos h]
    ·   rw [if_neg h]
        exact ((insertSorted_perm x ys).cons y).trans (List.Perm.swap x y ys)

theorem sortSE_perm : ∀ (l : List (String × AggEntry)), List.Perm (sortSE l) l
  | [] => List.Perm.refl _
  | x :: xs => by
    unfold sortSE
    exact (insertSorted_perm x (sortSE xs)).trans ((sortSE_perm xs).cons x)

theorem mem_insertSorted {a x : String × AggEntry} {l : List (String × AggEntry)}
    (h : a ∈ insertSorted x l) : a = x ∨ a ∈ l := by
  have := (insertSorted_perm x l).mem_iff.mp h
  simpa using this


/-- A record contributes to effect `k` iff it is not skipped and its
extracted name is exactly `k`. -/
def seMatches (k : String) (se : RawItem) : Bool :=
  !(decide (seName se = "" ∨ seName se = "undefined")) && (seName se == k)

/-- The number of side-effect record occurrences named `k` among the
medications active on `D` (what the aggregation actually counts). -/
def occCount (meds : List Med) (D k : String) : Nat :=
  ((activeMeds meds D).map fun m => (m.sideEffects.filter (seMatches k)).length).sum

/-- The contributing medication names for effect `k`, in iteration order,
one occurrence per matching record. -/
def contributors (meds : List Med) (D k : String) : List String :=
  (activeMeds meds D).flatMap fun m =>
    (m.sideEffects.filter (seMatches k)).map fun _ => m.name

/-! ### Order facts for the comparator's string comparison -/

theorem charsLt_asymm : ∀ (x y : List Char), charsLt x y = true → charsLt y x = false
  | [], [] => by simp [charsLt]
  | [], _ :: _ => by simp [charsLt]
  | _ :: _, [] => by simp [charsLt]
  | a :: as, b :: bs => by
    simp only [charsLt]
    intro h
    by_cases h1 : a.toNat < b.toNat
    · rw [if_neg (by omega : ¬ b.toNat < a.toNat), if_pos h1]
    · by_cases h2 : b.toNat < a.toNat
      · rw [if_neg h1, if_pos h2] at h
        exact absurd h (by simp)
      · rw [if_neg h1, if_neg h2] at h
        rw [if_neg h2, if_neg h1]
        exact charsLt_asymm as bs h

theorem charsLt_trans : ∀ (x y z : List Char),
    charsLt x y = true → charsLt y z = true → charsLt x z = true
  | [], [], _ => by simp [charsLt]
  | [], _ :: _, [] => by simp [charsLt]
  | [], _ :: _, _ :: _ => by simp [charsLt]
  | _ :: _, [], _ => by simp [charsLt]
  | _ :: _, _ :: _, [] => by simp [charsLt]
  | a :: as, b :: bs, c :: cs => by
    simp only [charsLt]
    intro h1 h2
    by_cases hab : a.toNat < b.toNat
    · by_cases hbc : b.toNat < c.toNat
      · rw [if_pos (by omega)]
      · rw [if_neg hbc] at h2
        by_cases hcb : c.toNat < b.toNat
        · rw [if_pos hcb] at h2
          exact absurd h2 (by simp)
        · rw [if_pos (by omega)]
    · rw [if_neg hab] at h1
      by_cases hba : b.toNat < a.toNat
      · rw [if_pos hba] at h1
        exact absurd h1 (by simp)
      · rw [if_neg hba] at h1
        by_cases hbc : b.toNat < c.toNat
        · rw [if_pos (by omega)]
        · rw [if_neg hbc] at h2
          by_cases hcb : c.toNat < b.toNat
          · rw [if_pos hcb] at h2
            exact absurd h2 (by simp)
          · rw [if_neg hcb] at h2
            rw [if_neg (by omega), if_neg (by omega)]
            exact charsLt_trans as bs cs h1 h2

theorem eq_of_charsLt_false : ∀ (x y : List Char),
    charsLt x y = false → charsLt y x = false → x = y
  | [], [], _, _ => rfl
  | [], _ :: _, h, _ => by simp [charsLt] at h
  | _ :: _, [], _, h => by simp [charsLt] at h
  | a :: as, b :: bs, h1, h2 => by
    simp only [charsLt] at h1 h2
    by_cases hab : a.toNat < b.toNat
    · rw [if_pos hab] at h1
      exact absurd h1 (by simp)
    · rw [if_neg hab] at h1
      by_cases hba : b.toNat < a.toNat
      · rw [if_pos hba] at h2
        exact absurd h2 (by simp)
      · rw [if_neg hba] at h1
        rw [if_neg hba, if_neg hab] at h2
        have hc : a = b := char_toNat_injective (by omega)
        rw [hc, eq_of_charsLt_false as bs h1 h2]

theorem strLtB_asymm {x y : String} (h : strLtB x y = true) : strLtB y x = false :=
  charsLt_asymm x.data y.data h

theorem strLtB_trans {x y z : String} (h1 : strLtB x y = true) (h2 : strLtB y z = true) :
    strLtB x z = true :=
  charsLt_trans x.data y.data z.data h1 h2

theorem eq_of_strLtB_false {x y : String} (h1 : strLtB x y = false)
    (h2 : strLtB y x = false) : x = y :=
  String.ext (eq_of_charsLt_false x.data y.data h1 h2)

/-- The characterization of the comparator-derived `seLe`. -/
theorem seLe_iff (x y : String × AggEntry) :
    seLe x y = true ↔
      (y.2.count < x.2.count ∨ (y.2.count = x.2.count ∧ strLtB y.1 x.1 = false)) := by
  unfold seLe seCmp strCmpInt
  by_cases hc : y.2.count ≠ x.2.count
  · rw [if_pos hc]
    simp only [decide_eq_true_eq]
    constructor
    · intro h
      left
      omega
    · rintro (h | ⟨h, _⟩)
      · omega
      · exact absurd h hc
  · rw [if_neg hc]
    have hcc : y.2.count = x.2.count := by omega
    by_cases h1 : strLtB x.1 y.1
    · rw [if_pos h1]
      simp only [decide_eq_true_eq]
      constructor
      · intro _
        exact Or.inr ⟨hcc, strLtB_asymm h1⟩
      · intro _
        omega
    · rw [if_neg h1]
      by_cases h2 : strLtB y.1 x.1
      · rw [if_pos h2]
        simp only [decide_eq_true_eq]
        constructor
        · intro h
          omega
        · rintro (h | ⟨_, h⟩)
          · omega
          · rw [h2] at h
            exact absurd h (by simp)
      · rw [if_neg h2]
        simp only [decide_eq_true_eq]
        constructor
        · intro _
          exact Or.inr ⟨hcc, Bool.of_not_eq_true h2⟩
        · intro _
          omega

theorem seLe_trans (a b c : String × AggEntry)
    (h1 : seLe a b = true) (h2 : seLe b c = true) : seLe a c = true := by
  rw [seLe_iff] at h1 h2 ⊢
  rcases h1 with h1 | ⟨h1c, h1s⟩
  · rcases h2 with h2 | ⟨h2c, _⟩
    · left; omega
    · left; omega
  · rcases h2 with h2 | ⟨h2c, h2s⟩
    · left; omega
    · right
      refine ⟨by omega, ?_⟩
      by_cases hca : strLtB c.1 a.1
      · exfalso
        by_cases hab : strLtB a.1 b.1
        · rw [strLtB_trans hca hab] at h2s
          exact absurd h2s (by simp)
        · have hab2 : a.1 = b.1 :=
            eq_of_strLtB_false (Bool.of_not_eq_true hab) h1s
          rw [← hab2, hca] at h2s
          exact absurd h2s (by simp)
      · exact Bool.of_not_eq_true hca

theorem seLe_total (a b : String × AggEntry) : (seLe a b || seLe b a) = true := by
  rcases Nat.lt_trichotomy a.2.count b.2.count with h | h | h
  · have : seLe b a = true := (seLe_iff b a).mpr (Or.inl h)
    simp [this]
  · by_cases hs : strLtB b.1 a.1
    · have : seLe b a = true := (seLe_iff b a).mpr (Or.inr ⟨h, strLtB_asymm hs⟩)
      simp [this]
    · have : seLe a b = true := (seLe_iff a b).mpr (Or.inr ⟨h.symm, Bool.of_not_eq_true hs⟩)
      simp [this]
  · have : seLe a b = true := (seLe_iff a b).mpr (Or.inl h)
    simp [this]

theorem pairwise_insertSorted (x : String × AggEntry) :
    ∀ (l : List (String × AggEntry)),
    l.Pairwise (fun a b => seLe a b = true) →
    (insertSorted x l).Pairwise (fun a b => seLe a b = true)
  | [], _ => by simp [insertSorted]
  | y :: ys, hl => by
    rw [List.pairwise_cons] at hl
    unfold insertSorted
    by_cases h : seLe x y
    ·   rw [if_pos h]
        rw [List.pairwise_cons]
        refine ⟨?_, List.pairwise_cons.mpr hl⟩
        intro b hb
        rcases List.mem_cons.mp hb with rfl | hb
        ·   exact h
        ·   exact seLe_trans x y b h (hl.1 b hb)
    ·   rw [if_neg h]
        rw [List.pairwise_cons]
        refine ⟨?_, pairwise_insertSorted x ys hl.2⟩
        intro b hb
        rcases mem_insertSorted hb with heq | hb2
        ·   rw [heq]
            have htot := seLe_total x y
            rw [Bool.or_eq_true] at htot
            rcases htot with h1 | h1
            ·   exact absurd h1 h
            ·   exact h1
        ·   exact hl.1 b hb2

theorem sortSE_sorted :
    ∀ (l : List (String × AggEntry)),
    (sortSE l).Pairwise (fun a b => seLe a b = true)
  | [] => List.Pairwise.nil
  | x :: xs => pairwise_insertSorted x (sortSE xs) (sortSE_sorted xs)

/-! ### Accumulator-map lemmas -/

/-- The count stored for key `k` (0 when absent). -/
def entryCount (acc : List (String × AggEntry)) (k : String) : Nat :=
  match acc.lookup k with
  | some e => e.count
  | none => 0

/-- The contributing-medication list stored for key `k` ([] when absent). -/
def entryMeds (acc : List (String × AggEntry)) (k : String) : List String :=
  match acc.lookup k with
  | some e => e.meds
  | none => []

theorem lookup_insertEntry (n mname d : String) :
    ∀ (acc : List (String × AggEntry)) (k : String),
    (insertEntry n mname d acc).lookup k
      = if k = n then
          some (match acc.lookup n with
            | none => ⟨[mname], 1, d⟩
            | some e => ⟨e.meds ++ [mname], e.count + 1, descUpd e.description d⟩)
        else acc.lookup k
  | [], k => by
    by_cases hk : k = n
    ·   have hb : (k == n) = true := by simp [hk]
        rw [if_pos hk]
        simp [insertEntry, List.lookup, hb]
    ·   have hb : (k == n) = false := by simp [hk]
        rw [if_neg hk]
        simp [insertEntry, List.lookup, hb]
  | (k2, e) :: rest, k => by
    by_cases h2 : k2 = n
    ·   subst h2
        simp only [insertEntry, if_pos rfl]
        by_cases hk : k = k2
        ·   have hb : (k == k2) = true := by simp [hk]
            rw [if_pos hk]
            simp [List.lookup, hb, hk]
        ·   have hb : (k == k2) = false := by simp [hk]
            rw [if_neg hk]
            simp [List.lookup, hb]
    ·   simp only [insertEntry, if_neg h2]
        by_cases hk : k = k2
        ·   have hb : (k == k2) = true := by simp [hk]
            have hkn : ¬ k = n := by rw [hk]; exact h2
            rw [if_neg hkn]
            simp [List.lookup, hb]
        ·   have hb : (k == k2) = false := by simp [hk]
            have heq := lookup_insertEntry n mname d rest k
            simp only [List.lookup, hb]
            rw [heq]
            by_cases hkn : k = n
            ·   rw [if_pos hkn, if_pos hkn]
                have hb2 : (n == k2) = false := by
                  simp only [beq_eq_false_iff_ne, ne_eq]
                  exact fun hc => h2 hc.symm
                simp [List.lookup, hb2]
            ·   rw [if_neg hkn, if_neg hkn]

theorem entryCount_stepSE (mname k : String) (acc : List (String × AggEntry)) (se : RawItem) :
    entryCount (stepSE mname acc se) k
      = entryCount acc k
        + (if (¬(seName se = "" ∨ seName se = "undefined")) ∧ seName se = k then 1 else 0) := by
  unfold stepSE
  by_cases hskip : seName se = "" ∨ seName se = "undefined"
  ·   rw [if_pos hskip, if_neg (by tauto)]
      simp
  ·   rw [if_neg hskip]
      unfold entryCount
      rw [lookup_insertEntry]
      by_cases hk : k = seName se
      ·   rw [if_pos hk, if_pos ⟨hskip, hk.symm⟩, ← hk]
          cases h : acc.lookup k with
          | none => simp
          | some e => simp
      ·   rw [if_neg hk, if_neg (fun hc => hk hc.2.symm)]
          simp

theorem entryMeds_stepSE (mname k : String) (acc : List (String × AggEntry)) (se : RawItem) :
    entryMeds (stepSE mname acc se) k
      = entryMeds acc k
        ++ (if (¬(seName se = "" ∨ seName se = "undefined")) ∧ seName se = k
            then [mname] else []) := by
  unfold stepSE
  by_cases hskip : seName se = "" ∨ seName se = "undefined"
  ·   rw [if_pos hskip, if_neg (by tauto)]
      simp
  ·   rw [if_neg hskip]
      unfold entryMeds
      rw [lookup_insertEntry]
      by_cases hk : k = seName se
      ·   rw [if_pos hk, if_pos ⟨hskip, hk.symm⟩, ← hk]
          cases h : acc.lookup k with
          | none => simp
          | some e => simp
      ·   rw [if_neg hk, if_neg (fun hc => hk hc.2.symm)]
          simp

theorem entryCount_foldl_records (mname k : String) :
    ∀ (ses : List RawItem) (acc : List (String × AggEntry)),
    entryCount (ses.foldl (stepSE mname) acc) k
      = entryCount acc k + (ses.filter (seMatches k)).length
  | [], acc => by simp
  | se :: rest, acc => by
    rw [List.foldl_cons, entryCount_foldl_records mname k rest, entryCount_stepSE]
    by_cases hm : (¬(seName se = "" ∨ seName se = "undefined")) ∧ seName se = k
    ·   rw [if_pos hm]
        have hb : seMatches k se = true := by
          simp [seMatches, decide_eq_false hm.1, hm.2]
          exact ⟨fun hc => hm.1 (Or.inl (hm.2.trans hc)),
                 fun hc => hm.1 (Or.inr (hm.2.trans hc))⟩
        rw [List.filter_cons_of_pos hb]
        simp
        omega
    ·   rw [if_neg hm]
        have hb : seMatches k se = false := by
          by_cases h1 : seName se = "" ∨ seName se = "undefined"
          ·   simp [seMatches, decide_eq_true h1]
          ·   have h2 : ¬ seName se = k := fun hc => hm ⟨h1, hc⟩
              simp [seMatches, decide_eq_false h1, h2]
        rw [List.filter_cons_of_neg (by simp [hb])]
        simp

theorem entryMeds_foldl_records (mname k : String) :
    ∀ (ses : List RawItem) (acc : List (String × AggEntry)),
    entryMeds (ses.foldl (stepSE mname) acc) k
      = entryMeds acc k ++ ((ses.filter (seMatches k)).map fun _ => mname)
  | [], acc => by simp
  | se :: rest, acc => by
    rw [List.foldl_cons, entryMeds_foldl_records mname k rest, entryMeds_stepSE]
    by_cases hm : (¬(seName se = "" ∨ seName se = "undefined")) ∧ seName se = k
    ·   rw [if_pos hm]
        have hb : seMatches k se = true := by
          simp [seMatches, decide_eq_false hm.1, hm.2]
          exact ⟨fun hc => hm.1 (Or.inl (hm.2.trans hc)),
                 fun hc => hm.1 (Or.inr (hm.2.trans hc))⟩
        rw [List.filter_cons_of_pos hb]
        simp
    ·   rw [if_neg hm]
        have hb : seMatches k se = false := by
          by_cases h1 : seName se = "" ∨ seName se = "undefined"
          ·   simp [seMatches, decide_eq_true h1]
          ·   have h2 : ¬ seName se = k := fun hc => hm ⟨h1, hc⟩
              simp [seMatches, decide_eq_false h1, h2]
        rw [List.filter_cons_of_neg (by simp [hb])]
        simp

theorem entryCount_foldl_meds (k : String) :
    ∀ (ms : List Med) (acc : List (String × AggEntry)),
    entryCount (ms.foldl (fun acc m => m.sideEffects.foldl (stepSE m.name) acc) acc) k
      = entryCount acc k + (ms.map fun m => (m.sideEffects.filter (seMatches k)).length).sum
  | [], acc => by simp
  | m :: rest, acc => by
    rw [List.foldl_cons, entryCount_foldl_meds k rest, entryCount_foldl_records]
    simp [List.sum_cons]
    omega

theorem entryMeds_foldl_meds (k : String) :
    ∀ (ms : List Med) (acc : List (String × AggEntry)),
    entryMeds (ms.foldl (fun acc m => m.sideEffects.foldl (stepSE m.name) acc) acc) k
      = entryMeds acc k
        ++ ms.flatMap fun m => (m.sideEffects.filter (seMatches k)).map fun _ => m.name
  | [], acc => by simp
  | m :: rest, acc => by
    rw [List.foldl_cons, entryMeds_foldl_meds k rest, entryMeds_foldl_records]
    simp

theorem entryCount_aggMap (meds : List Med) (D k : String) :
    entryCount (aggMap meds D) k = occCount meds D k := by
  unfold aggMap occCount
  rw [entryCount_foldl_meds]
  simp [entryCount, List.lookup]

theorem entryMeds_aggMap (meds : List Med) (D k : String) :
    entryMeds (aggMap meds D) k = contributors meds D k := by
  unfold aggMap contributors
  rw [entryMeds_foldl_meds]
  simp [entryMeds, List.lookup]

/-! ### Key uniqueness of the accumulator -/

theorem mem_keys_insertEntry {x n mname d : String} :
    ∀ (acc : List (String × AggEntry)),
    x ∈ (insertEntry n mname d acc).map Prod.fst → x ∈ acc.map Prod.fst ∨ x = n
  | [] => by
    intro h
    simp [insertEntry] at h
    exact Or.inr h
  | (k2, e) :: rest => by
    intro h
    by_cases h2 : k2 = n
    ·   rw [insertEntry, if_pos h2] at h
        simp only [List.map_cons, List.mem_cons] at h ⊢
        tauto
    ·   rw [insertEntry, if_neg h2] at h
        simp only [List.map_cons, List.mem_cons] at h ⊢
        rcases h with h | h
        ·   tauto
        ·   rcases mem_keys_insertEntry rest h with h | h
            ·   tauto
            ·   tauto

theorem nodup_keys_insertEntry {n mname d : String} :
    ∀ (acc : List (String × AggEntry)),
    (acc.map Prod.fst).Nodup → ((insertEntry n mname d acc).map Prod.fst).Nodup
  | [] => by
    intro _
    simp [insertEntry]
  | (k2, e) :: rest => by
    intro hnd
    rw [List.map_cons, List.nodup_cons] at hnd
    by_cases h2 : k2 = n
    ·   rw [insertEntry, if_pos h2, List.map_cons, List.nodup_cons]
        exact ⟨hnd.1, hnd.2⟩
    ·   rw [insertEntry, if_neg h2, List.map_cons, List.nodup_cons]
        refine ⟨?_, nodup_keys_insertEntry rest hnd.2⟩
        intro hc
        rcases mem_keys_insertEntry rest hc with h | h
        ·   exact hnd.1 h
        ·   exact h2 h

theorem nodup_keys_stepSE (mname : String) (acc : List (String × AggEntry)) (se : RawItem)
    (h : (acc.map Prod.fst).Nodup) : ((stepSE mname acc se).map Prod.fst).Nodup := by
  unfold stepSE
  by_cases hskip : seName se = "" ∨ seName se = "undefined"
  ·   rwa [if_pos hskip]
  ·   rw [if_neg hskip]
      exact nodup_keys_insertEntry acc h

theorem nodup_keys_foldl_records (mname : String) :
    ∀ (ses : List RawItem) (acc : List (String × AggEntry)),
    (acc.map Prod.fst).Nodup → ((ses.foldl (stepSE mname) acc).map Prod.fst).Nodup
  | [], _, h => h
  | se :: rest, acc, h =>
    nodup_keys_foldl_records mname rest _ (nodup_keys_stepSE mname acc se h)

theorem nodup_keys_foldl_meds :
    ∀ (ms : List Med) (acc : List (String × AggEntry)),
    (acc.map Prod.fst).Nodup →
    ((ms.foldl (fun acc m => m.sideEffects.foldl (stepSE m.name) acc) acc).map Prod.fst).Nodup
  | [], _, h => h
  | m :: rest, acc, h =>
    nodup_keys_foldl_meds rest _ (nodup_keys_foldl_records m.name m.sideEffects acc h)

theorem nodup_keys_aggMap (meds : List Med) (D : String) :
    ((aggMap meds D).map Prod.fst).Nodup :=
  nodup_keys_foldl_meds (activeMeds meds D) [] (by simp)

/-! ### Association-list lookup vs membership -/

theorem lookup_eq_some_of_mem {β : Type} :
    ∀ (l : List (String × β)) (k : String) (e : β),
    (l.map Prod.fst).Nodup → (k, e) ∈ l → l.lookup k = some e
  | [], k, e, _, h => absurd h (List.not_mem_nil _)
  | (k2, e2) :: rest, k, e, hnd, h => by
    rw [List.map_cons, List.nodup_cons] at hnd
    rcases List.mem_cons.mp h with heq | hmem
    ·   obtain ⟨rfl, rfl⟩ : k = k2 ∧ e = e2 := by
          exact ⟨congrArg Prod.fst heq, congrArg Prod.snd heq⟩
        simp [List.lookup]
    ·   have hk : ¬ k = k2 :=
          fun hc => hnd.1 (hc ▸ List.mem_map.mpr ⟨(k, e), hmem, rfl⟩)
        have hb : (k == k2) = false := by simp [hk]
        simp only [List.lookup, hb]
        exact lookup_eq_some_of_mem rest k e hnd.2 hmem

theorem mem_of_lookup_eq_some {β : Type} :
    ∀ (l : List (String × β)) (k : String) (e : β),
    l.lookup k = some e → (k, e) ∈ l
  | [], k, e, h => by simp [List.lookup] at h
  | (k2, e2) :: rest, k, e, h => by
    by_cases hk : k = k2
    ·   have hb : (k == k2) = true := by simp [hk]
        simp only [List.lookup, hb] at h
        cases h
        exact hk ▸ List.mem_cons_self _ _
    ·   have hb : (k == k2) = false := by simp [hk]
        simp only [List.lookup, hb] at h
        exact List.mem_cons_of_mem _ (mem_of_lookup_eq_some rest k e h)

theorem filter_key_nil {β : Type} :
    ∀ (l : List (String × β)) (s : String),
    s ∉ l.map Prod.fst → (l.filter fun p => p.1 == s) = []
  | [], _, _ => rfl
  | (k, e) :: rest, s, h => by
    simp only [List.map_cons, List.mem_cons] at h
    push_neg at h
    rw [List.filter_cons_of_neg (by simp; exact fun hc => h.1 hc.symm)]
    exact filter_key_nil rest s h.2

theorem length_filter_key_eq_one {β : Type} :
    ∀ (l : List (String × β)) (s : String),
    (l.map Prod.fst).Nodup → s ∈ l.map Prod.fst →
    (l.filter fun p => p.1 == s).length = 1
  | [], s, _, h => absurd h (by simp)
  | (k, e) :: rest, s, hnd, hm => by
    rw [List.map_cons, List.nodup_cons] at hnd
    by_cases hk : k = s
    ·   subst hk
        rw [List.filter_cons_of_pos (by simp)]
        rw [filter_key_nil rest k hnd.1]
        rfl
    ·   rw [List.filter_cons_of_neg (by simp [hk])]
        apply length_filter_key_eq_one rest s hnd.2
        rcases List.mem_cons.mp hm with h | h
        ·   exact absurd h.symm hk
        ·   exact h

/-! ### The aggregation claims -/

/-- C1 (amended): each `(effectName, entry)` pair produced by the aggregation
has `entry.count` equal to the number of side-effect record occurrences with
that exact extracted name across the medications active on `D`; medications
inactive on `D` contribute nothing.  (The code counts record occurrences, not
distinct medications: a medication listing the same name twice contributes 2.) -/
theorem allSideEffects_count (meds : List Med) (D : String) :
    ∀ k e, (k, e) ∈ allSideEffects meds D → e.count = occCount meds D k := by
  intro k e hmem
  have hperm : List.Perm (allSideEffects meds D) (aggMap meds D) := sortSE_perm (aggMap meds D)
  have hmem2 : (k, e) ∈ aggMap meds D := hperm.mem_iff.mp hmem
  have hnd := nodup_keys_aggMap meds D
  have hlk := lookup_eq_some_of_mem (aggMap meds D) k e hnd hmem2
  have hcnt := entryCount_aggMap meds D k
  unfold entryCount at hcnt
  rw [hlk] at hcnt
  exact hcnt

/-- A medication listing the same effect name in two records, used to refute
C1 as stated and to witness the amended count theorem. -/
def cexMeds : List Med :=
  [⟨"m1", "MedA", "", "2024-01-01", "", [.str "Nausea", .str "Nausea"]⟩]

/-- C1 counterexample: with one active medication whose record list names
"Nausea" twice, the aggregation's entry has `count = 2`, while the number of
medications active on the date that list "Nausea" is 1 — so `occurrenceCount`
is not the number of active medications listing the name. -/
theorem allSideEffects_count_claim_cex :
    allSideEffects cexMeds "2024-06-01"
      = [("Nausea", ⟨["MedA", "MedA"], 2, ""⟩)]
    ∧ ((activeMeds cexMeds "2024-06-01").filter
        (fun m => m.sideEffects.any fun se => seName se == "Nausea")).length = 1
    ∧ (2 : Nat) ≠ 1 :=
  ⟨rfl, rfl, by decide⟩

/-- Witness for the amended C1 theorem at a concrete input. -/
theorem allSideEffects_count_witness :
    ("Nausea", (⟨["MedA", "MedA"], 2, ""⟩ : AggEntry)) ∈ allSideEffects cexMeds "2024-06-01"
    ∧ (⟨["MedA", "MedA"], 2, ""⟩ : AggEntry).count = occCount cexMeds "2024-06-01" "Nausea" :=
  ⟨by decide,
   allSideEffects_count cexMeds "2024-06-01" "Nausea" ⟨["MedA", "MedA"], 2, ""⟩ (by decide)⟩

/-- C2: when one active medication carries a legacy bare-string record `s`
and another active medication carries a structured record named `s`, the
aggregation produces exactly one entry keyed `s`, and it carries both
medications' contributions. -/
theorem allSideEffects_merges_legacy (meds : List Med) (D : String) (A B : Med)
    (s dsc : String)
    (hA : A ∈ meds) (hB : B ∈ meds)
    (hAact : (A.endDate == "" || strGeB A.endDate D) = true)
    (hBact : (B.endDate == "" || strGeB B.endDate D) = true)
    (hAse : RawItem.str s ∈ A.sideEffects)
    (hBse : RawItem.obj s dsc ∈ B.sideEffects)
    (hs1 : s ≠ "") (hs2 : s ≠ "undefined") :
    ((allSideEffects meds D).filter fun p => p.1 == s).length = 1
    ∧ ∃ e, (s, e) ∈ allSideEffects meds D ∧ A.name ∈ e.meds ∧ B.name ∈ e.meds := by
  have hsk : ¬ (s = "" ∨ s = "undefined") := by tauto
  have hAmem : A ∈ activeMeds meds D := List.mem_filter.mpr ⟨hA, hAact⟩
  have hBmem : B ∈ activeMeds meds D := List.mem_filter.mpr ⟨hB, hBact⟩
  have hmatchA : seMatches s (RawItem.str s) = true := by
    simp [seMatches, seName, decide_eq_false hsk]
  have hmatchB : seMatches s (RawItem.obj s dsc) = true := by
    have hname : seName (RawItem.obj s dsc) = s := by simp [seName, hs1]
    simp [seMatches, hname, decide_eq_false hsk]
  have hconA : A.name ∈ contributors meds D s := by
    unfold contributors
    exact List.mem_flatMap.mpr
      ⟨A, hAmem, List.mem_map.mpr ⟨RawItem.str s, List.mem_filter.mpr ⟨hAse, hmatchA⟩, rfl⟩⟩
  have hconB : B.name ∈ contributors meds D s := by
    unfold contributors
    exact List.mem_flatMap.mpr
      ⟨B, hBmem, List.mem_map.mpr ⟨RawItem.obj s dsc, List.mem_filter.mpr ⟨hBse, hmatchB⟩, rfl⟩⟩
  have hmeds := entryMeds_aggMap meds D s
  unfold entryMeds at hmeds
  cases hlk : (aggMap meds D).lookup s with
  | none =>
    rw [hlk] at hmeds
    have hmeds2 : [] = contributors meds D s := hmeds
    rw [← hmeds2] at hconA
    exact absurd hconA (List.not_mem_nil _)
  | some e =>
    rw [hlk] at hmeds
    have hmeds2 : e.meds = contributors meds D s := hmeds
    have hmemAgg : (s, e) ∈ aggMap meds D := mem_of_lookup_eq_some (aggMap meds D) s e hlk
    have hperm : List.Perm (allSideEffects meds D) (aggMap meds D) := sortSE_perm (aggMap meds D)
    have hmemS : (s, e) ∈ allSideEffects meds D := hperm.mem_iff.mpr hmemAgg
    have hnd := nodup_keys_aggMap meds D
    have hndS : ((allSideEffects meds D).map Prod.fst).Nodup :=
      ((hperm.map Prod.fst).nodup_iff).mpr hnd
    refine ⟨?_, e, hmemS, ?_, ?_⟩
    ·   exact length_filter_key_eq_one (allSideEffects meds D) s hndS
          (List.mem_map.mpr ⟨(s, e), hmemS, rfl⟩)
    ·   rw [hmeds2]
        exact hconA
    ·   rw [hmeds2]
        exact hconB

/-- Two active medications, one with a legacy record and one with a
structured record of the same name, for the C2 witness. -/
def wMeds : List Med :=
  [⟨"m1", "MedA", "", "2024-01-01", "", [.str "Nausea"]⟩,
   ⟨"m2", "MedB", "", "2024-01-01", "", [.obj "Nausea" "queasy"]⟩]

/-- Witness for C2 at a concrete input. -/
theorem allSideEffects_merges_legacy_witness :
    ((allSideEffects wMeds "2024-06-01").filter fun p => p.1 == "Nausea").length = 1
    ∧ ∃ e, ("Nausea", e) ∈ allSideEffects wMeds "2024-06-01"
        ∧ "MedA" ∈ e.meds ∧ "MedB" ∈ e.meds :=
  allSideEffects_merges_legacy wMeds "2024-06-01"
    ⟨"m1", "MedA", "", "2024-01-01", "", [.str "Nausea"]⟩
    ⟨"m2", "MedB", "", "2024-01-01", "", [.obj "Nausea" "queasy"]⟩
    "Nausea" "queasy"
    (by decide) (by decide) (by decide) (by decide)
    (by decide) (by decide) (by decide) (by decide)

/-- C8: the aggregation's output is totally ordered: of any two pairs, the
one with the strictly higher `count` comes first, and pairs with equal
counts appear in strictly ascending lexical order of their effect names;
being a pure function of its inputs, the order is deterministic. -/
theorem allSideEffects_sorted (meds : List Med) (D : String) :
    (allSideEffects meds D).Pairwise fun x y =>
      y.2.count < x.2.count ∨ (x.2.count = y.2.count ∧ strLtB x.1 y.1 = true) := by
  have hs := sortSE_sorted (aggMap meds D)
  have hperm : List.Perm (allSideEffects meds D) (aggMap meds D) := sortSE_perm (aggMap meds D)
  have hnd := nodup_keys_aggMap meds D
  have hndS : ((allSideEffects meds D).map Prod.fst).Nodup :=
    ((hperm.map Prod.fst).nodup_iff).mpr hnd
  have hptne : (allSideEffects meds D).Pairwise fun x y => x.1 ≠ y.1 :=
    List.pairwise_map.mp hndS
  have hcomb := List.Pairwise.and hs hptne
  refine hcomb.imp ?_
  rintro x y ⟨hle, hne⟩
  rw [seLe_iff] at hle
  rcases hle with h | ⟨hc, hsf⟩
  ·   exact Or.inl h
  ·   refine Or.inr ⟨hc.symm, ?_⟩
      by_cases hxy : strLtB x.1 y.1
      ·   exact hxy
      ·   exact absurd (eq_of_strLtB_false (Bool.of_not_eq_true hxy) hsf) hne

/-! ## The Persistent Store (src/server.js lines 40-91)

The persistence layer stores JSON text files.  A file's content is either
the serialization of a JSON value (`wellFormed j`, on which `JSON.parse`
returns `j` — the host guarantee `JSON.parse (JSON.stringify j) = j`) or
unparseable text (`malformed`, on which `JSON.parse` throws).  `none` for a
file means `existsSync` is false. -/

/-- A JSON document (JS object-literal insertion order preserved). -/
inductive Json where
  | null
  | bool (b : Bool)
  | num (n : Int)
  | str (s : String)
  | arr (items : List Json)
  | obj (fields : List (String × Json))

/-- Content of a stored file. -/
inductive FileContent where
  | wellFormed (j : Json)
  | malformed

/-- The two files of the store (`DATA_FILE` and `BACKUP_FILE`). -/
structure Store where
  primary : Option FileContent
  backup : Option FileContent

/-- `DEFAULT_STATE` (src/server.js lines 45-52). -/
def DEFAULT_STATE : Json :=
  .obj [("dailyAssessments", .obj []), ("medications", .arr []),
        ("sideEffectSeverities", .obj []), ("journal", .obj []),
        ("notes", .str ""), ("theme", .str "light")]

/-- The minimal shape check (line 66):
`parsed && typeof parsed === 'object' && 'dailyAssessments' in parsed`.
`null` is falsy; arrays and primitives fail the key test. -/
def shapeOk : Json → Bool
  | .obj fields => fields.any fun f => f.1 == "dailyAssessments"
  | _ => false

/-- `readPatientData` (src/server.js lines 60-80): missing primary gives the
default; a parsed primary is returned only if it passes the shape check,
else the default; a primary on which `JSON.parse` throws falls to the
backup, which is returned parsed with **no** shape check, else the default.
The function is total: the load path never throws. -/
def readPatientData (fs : Store) : Json :=
  match fs.primary with
  | none => DEFAULT_STATE
  | some (.wellFormed j) => if shapeOk j then j else DEFAULT_STATE
  | some .malformed =>
    match fs.backup with
    | some (.wellFormed j) => j
    | _ => DEFAULT_STATE

/-- `writePatientData` (src/server.js lines 82-91): copy the existing
primary content (whatever it is) to the backup, then overwrite the primary
with the serialized new document.  When no primary exists, the backup is
left untouched. -/
def writePatientData (doc : Json) (fs : Store) : Store :=
  { primary := some (.wellFormed doc),
    backup := match fs.primary with
      | some c => some c
      | none => fs.backup }

/-- Simulated corruption of the primary file (the stored text no longer
parses), the scenario that forces a read onto the backup. -/
def corruptPrimary (fs : Store) : Store :=
  { fs with primary := some .malformed }

/-! ### The client's PatientState document (src/unnamed/part_000 lines 21-28
and the medication/assessment shapes it stores) -/

structure Assessment where
  general : Nat
  energy : Nat
  concentration : Nat
  sleep : Nat
deriving DecidableEq, Repr

structure PatientState where
  dailyAssessments : List (String × Assessment)
  medications : List Med
  sideEffectSeverities : List (String × List (String × Nat))
  journal : List (String × String)
  notes : String
  theme : String
deriving DecidableEq, Repr

def encodeAssessment (a : Assessment) : Json :=
  .obj [("general", .num a.general), ("energy", .num a.energy),
        ("concentration", .num a.concentration), ("sleep", .num a.sleep)]

def encodeRawItem : RawItem → Json
  | .str s => .str s
  | .obj n d => .obj [("name", .str n), ("description", .str d)]

def encodeMed (m : Med) : Json :=
  .obj [("id", .str m.id), ("name", .str m.name), ("dosage", .str m.dosage),
        ("startDate", .str m.startDate), ("endDate", .str m.endDate),
        ("sideEffects", .arr (m.sideEffects.map encodeRawItem))]

/-- The JSON form of a PatientState document, as the client PUTs it. -/
def encodePatientState (st : PatientState) : Json :=
  .obj [("dailyAssessments", .obj (st.dailyAssessments.map fun p => (p.1, encodeAssessment p.2))),
        ("medications", .arr (st.medications.map encodeMed)),
        ("sideEffectSeverities", .obj (st.sideEffectSeverities.map fun p =>
            (p.1, Json.obj (p.2.map fun q => (q.1, Json.num q.2))))),
        ("journal", .obj (st.journal.map fun p => (p.1, Json.str p.2))),
        ("notes", .str st.notes),
        ("theme", .str st.theme)]

theorem shapeOk_encodePatientState (st : PatientState) :
    shapeOk (encodePatientState st) = true := rfl

/-- C5: round trip and one-level backup history: writing a PatientState
document and reading returns the same document; after two successive
writes, a read forced onto the backup (primary unreadable) returns the
first written document, not the second. -/
theorem store_roundtrip_backup :
    (∀ (st : PatientState) (fs : Store),
      readPatientData (writePatientData (encodePatientState st) fs) = encodePatientState st)
    ∧ (∀ (d1 d2 : Json) (fs : Store),
      readPatientData (corruptPrimary (writePatientData d2 (writePatientData d1 fs))) = d1) := by
  constructor
  ·   intro st fs
      unfold readPatientData writePatientData
      simp [shapeOk_encodePatientState]
  ·   intro d1 d2 fs
      rfl

/-- Witness for C5 at a concrete input (both hypothesis-free parts applied
to explicit documents and an empty store). -/
theorem store_roundtrip_backup_witness :
    readPatientData (writePatientData
        (encodePatientState ⟨[], [], [], [], "n", "light"⟩) ⟨none, none⟩)
      = encodePatientState ⟨[], [], [], [], "n", "light"⟩
    ∧ readPatientData (corruptPrimary (writePatientData (.str "two")
        (writePatientData (.str "one") ⟨none, none⟩))) = .str "one" :=
  ⟨store_roundtrip_backup.1 ⟨[], [], [], [], "n", "light"⟩ ⟨none, none⟩,
   store_roundtrip_backup.2 (.str "one") (.str "two") ⟨none, none⟩⟩

/-- Counts an object's fields (a discriminator for document inequality). -/
def objFieldCount : Json → Nat
  | .obj fields => fields.length
  | _ => 0

/-- A primary that parses but fails the shape check, next to a perfectly
readable backup. -/
def cexStore : Store :=
  ⟨some (.wellFormed (.obj [("foo", .num 1)])),
   some (.wellFormed (.obj [("dailyAssessments", .obj []), ("marker", .str "backup")]))⟩

/-- C4 counterexample: with a primary that exists, parses, but fails the
minimal shape check, `readPatientData` returns the default document
directly even though a readable backup exists — it does not fall back to
the backup first as the claim states. -/
theorem readPatientData_shapefail_claim_cex :
    readPatientData cexStore = DEFAULT_STATE
    ∧ cexStore.backup
        = some (.wellFormed (.obj [("dailyAssessments", .obj []), ("marker", .str "backup")]))
    ∧ DEFAULT_STATE
        ≠ Json.obj [("dailyAssessments", .obj []), ("marker", .str "backup")] :=
  ⟨rfl, rfl, fun h => absurd (congrArg objFieldCount h) (by decide)⟩

/-- C4 (amended): a primary that exists and parses but fails the minimal
shape check yields the default document directly; the backup is consulted
(before the default) only when parsing the primary throws; a missing
primary yields the default.  `readPatientData` is a total function — the
load path never throws. -/
theorem readPatientData_fallback (fs : Store) :
    (∀ j, fs.primary = some (.wellFormed j) → shapeOk j = false →
        readPatientData fs = DEFAULT_STATE)
    ∧ (fs.primary = some .malformed →
        readPatientData fs = (match fs.backup with
          | some (.wellFormed j) => j
          | _ => DEFAULT_STATE))
    ∧ (fs.primary = none → readPatientData fs = DEFAULT_STATE) := by
  refine ⟨?_, ?_, ?_⟩
  ·   intro j hp hs
      unfold readPatientData
      rw [hp]
      show (if shapeOk j = true then j else DEFAULT_STATE) = DEFAULT_STATE
      rw [hs]
      simp
  ·   intro hp
      unfold readPatientData
      rw [hp]
  ·   intro hp
      unfold readPatientData
      rw [hp]

/-- Witness for the amended C4 theorem at the concrete store. -/
theorem readPatientData_fallback_witness :
    readPatientData cexStore = DEFAULT_STATE :=
  (readPatientData_fallback cexStore).1 (.obj [("foo", .num 1)]) rfl rfl

/-! ## The debounced auto-save effect (src/unnamed/part_000 lines 358-370)

The effect runs on every state/loaded change.  Its discrete-time model: an
event at time `t` first lets a due timer fire (the event loop runs timer
callbacks whose deadline has passed), then executes the effect body:
nothing while not loaded; the first run after the load consumes
`initialLoad` and schedules nothing; every later run cancels the pending
timer and schedules a push of the current state for `t + 600`. -/

def DEBOUNCE_DELAY : Nat := 600

structure SyncSt (σ : Type) where
  pending : Option (Nat × σ)
  pushes : List σ
  primed : Bool

/-- A pending timer whose deadline has passed fires, pushing its snapshot. -/
def fireIfDue {σ : Type} (t : Nat) (st : SyncSt σ) : SyncSt σ :=
  match st.pending with
  | some (d, snap) =>
    if d ≤ t then { st with pending := none, pushes := st.pushes ++ [snap] } else st
  | none => st

/-- The effect body (lines 360-368): consume `initialLoad` on the first run,
else `clearTimeout` + `setTimeout(…, 600)` with the current state. -/
def effectRun {σ : Type} (t : Nat) (s : σ) (st : SyncSt σ) : SyncSt σ :=
  if st.primed = false then { st with primed := true }
  else { st with pending := some (t + DEBOUNCE_DELAY, s) }

/-- The load's own state assignment: the effect's first run, from the fresh
component state. -/
def initialLoad {σ : Type} (t0 : Nat) (s0 : σ) : SyncSt σ :=
  effectRun t0 s0 ⟨none, [], false⟩

/-- Process a chronological list of timestamped mutations. -/
def runMutations {σ : Type} (muts : List (Nat × σ)) (st : SyncSt σ) : SyncSt σ :=
  muts.foldl (fun st p => effectRun p.1 p.2 (fireIfDue p.1 st)) st

/-- After the last event, time passes and any pending timer fires: the
complete push sequence of the run. -/
def flushPending {σ : Type} (st : SyncSt σ) : List σ :=
  match st.pending with
  | some (_, snap) => st.pushes ++ [snap]
  | none => st.pushes

/-- The burst invariant: from a primed state whose only pending timer was
scheduled by the event `cur`, mutations each arriving within the debounce
delay of their predecessor leave exactly the pushes made so far plus one
final push of the last state. -/
theorem runMutations_pending {σ : Type} :
    ∀ (muts : List (Nat × σ)) (pushes : List σ) (cur : Nat × σ),
    List.Chain' (fun a b => a.1 ≤ b.1 ∧ b.1 < a.1 + DEBOUNCE_DELAY) (cur :: muts) →
    flushPending (runMutations muts ⟨some (cur.1 + DEBOUNCE_DELAY, cur.2), pushes, true⟩)
      = pushes ++ [(muts.getLastD cur).2]
  | [], pushes, cur, _ => rfl
  | (t1, s1) :: rest, pushes, cur, hchain => by
    rw [List.chain'_cons] at hchain
    have hgap : t1 < cur.1 + DEBOUNCE_DELAY := hchain.1.2
    have hfire : fireIfDue t1
        (⟨some (cur.1 + DEBOUNCE_DELAY, cur.2), pushes, true⟩ : SyncSt σ)
        = ⟨some (cur.1 + DEBOUNCE_DELAY, cur.2), pushes, true⟩ := by
      show (if cur.1 + DEBOUNCE_DELAY ≤ t1 then _ else _) = _
      rw [if_neg (by omega)]
    have hstep :
        runMutations ((t1, s1) :: rest) ⟨some (cur.1 + DEBOUNCE_DELAY, cur.2), pushes, true⟩
          = runMutations rest ⟨some (t1 + DEBOUNCE_DELAY, s1), pushes, true⟩ := by
      show runMutations rest
          (effectRun t1 s1 (fireIfDue t1 ⟨some (cur.1 + DEBOUNCE_DELAY, cur.2), pushes, true⟩))
        = _
      rw [hfire]
      rfl
    rw [hstep, runMutations_pending rest pushes (t1, s1) hchain.2]
    have : ((t1, s1) :: rest).getLastD cur = rest.getLastD (t1, s1) := by
      cases rest <;> simp [List.getLastD]
    rw [this]

/-- C6: after the initial load, a burst of N ≥ 1 mutations, each arriving
less than the debounce delay after the previous one, produces exactly one
push, carrying the state of the last mutation; the initial load's own state
assignment (zero subsequent mutations) produces no push at all. -/
theorem debounce_coalesces {σ : Type} (t0 : Nat) (s0 : σ)
    (first : Nat × σ) (rest : List (Nat × σ))
    (hchain : List.Chain' (fun a b => a.1 ≤ b.1 ∧ b.1 < a.1 + DEBOUNCE_DELAY)
      (first :: rest)) :
    flushPending (runMutations (first :: rest) (initialLoad t0 s0))
      = [(rest.getLastD first).2]
    ∧ flushPending (runMutations [] (initialLoad t0 s0)) = [] := by
  constructor
  ·   have hstep :
        runMutations (first :: rest) (initialLoad t0 s0)
          = runMutations rest ⟨some (first.1 + DEBOUNCE_DELAY, first.2), [], true⟩ := rfl
      rw [hstep, runMutations_pending rest [] first hchain]
      simp
  ·   rfl

/-- Witness for C6: three mutations 100 time units apart (and one spaced
500) coalesce into the single push of the last state; zero mutations push
nothing. -/
theorem debounce_coalesces_witness :
    flushPending (runMutations [(100, 1), (200, 2), (700, 3)] (initialLoad 0 7)) = [3]
    ∧ flushPending (runMutations ([] : List (Nat × Nat)) (initialLoad 0 7)) = [] :=
  debounce_coalesces 0 7 (100, 1) [(200, 2), (700, 3)]
    (by
      rw [List.chain'_cons, List.chain'_cons]
      exact ⟨⟨by decide, by decide⟩, ⟨by decide, by decide⟩, List.chain'_singleton _⟩)

/-! ## The server `/api/side-effects` handler (src/server.js lines 119-212)

The server has its own (smaller) description table; its excluded-term set
is identical to the client's `EXCLUDED_TERMS`, which is reused. -/

/-- The server `DESCRIPTIONS` table (src/server.js lines 131-170). -/
def SERVER_DESCRIPTIONS : List (String × String) :=
  [("nausea", "A queasy feeling in the stomach that may cause an urge to vomit."),
   ("headache", "Pain or pressure in the head, ranging from mild to severe."),
   ("dizziness", "A sensation of lightheadedness or feeling unsteady on your feet."),
   ("fatigue", "Persistent tiredness or exhaustion that doesn't improve with rest."),
   ("diarrhoea", "Frequent loose or watery bowel movements."),
   ("diarrhea", "Frequent loose or watery bowel movements."),
   ("vomiting", "Forceful emptying of the stomach contents through the mouth."),
   ("insomnia", "Difficulty falling asleep, staying asleep, or waking too early."),
   ("somnolence", "Excessive drowsiness or sleepiness during the day."),
   ("dry mouth", "Reduced saliva production causing a parched feeling in the mouth."),
   ("constipation", "Infrequent or difficult bowel movements."),
   ("abdominal pain", "Discomfort or cramping felt between the chest and pelvis."),
   ("rash", "A noticeable change in the color or texture of the skin."),
   ("anxiety", "Feelings of worry, nervousness, or unease."),
   ("tremor", "Involuntary shaking or trembling, often in the hands."),
   ("decreased appetite", "Reduced desire to eat or feeling full very quickly."),
   ("palpitations", "Awareness of your heartbeat, which may feel fast or fluttering."),
   ("blurred vision", "Difficulty seeing clearly, as though looking through fog."),
   ("myalgia", "Muscle aches or soreness, often felt as a dull pain."),
   ("arthralgia", "Pain in one or more joints without visible swelling."),
   ("dyspepsia", "Indigestion — discomfort or burning in the upper stomach area."),
   ("pruritus", "Persistent itching of the skin that causes an urge to scratch."),
   ("hyperhidrosis", "Excessive sweating beyond what is needed to cool the body."),
   ("depression", "Persistent feelings of sadness, hopelessness, or loss of interest."),
   ("asthenia", "Overall weakness or lack of energy making daily activities harder."),
   ("paraesthesia", "Tingling, numbness, or a pins and needles sensation."),
   ("irritability", "Feeling easily annoyed, frustrated, or agitated."),
   ("weight increased", "Noticeable gain in body weight since starting medication."),
   ("weight decreased", "Noticeable loss in body weight since starting medication."),
   ("malaise", "A general feeling of discomfort, unease, or being unwell."),
   ("hot flush", "Sudden feeling of warmth spreading through the body."),
   ("tachycardia", "Resting heart rate faster than normal, above ~100 bpm."),
   ("dyspnoea", "Shortness of breath or difficulty breathing."),
   ("urticaria", "Raised, itchy welts on the skin, commonly called hives."),
   ("confusional state", "Difficulty thinking clearly, feeling disoriented."),
   ("alopecia", "Thinning or loss of hair from the scalp or body."),
   ("oedema", "Swelling caused by fluid buildup, often in feet or hands."),
   ("edema", "Swelling caused by fluid buildup, often in feet or hands.")]

/-- Term post-processing of the server `queryFDA` (lines 191-198). -/
def serverFdaProcess (results : List String) : List SideEffect :=
  (((results.map strToLower).filter fun t => !EXCLUDED_TERMS.contains t).take 12).map
    fun term =>
      ⟨toTitleCase term,
       jsOrStr (SERVER_DESCRIPTIONS.lookup term)
         (jsOrStr (SERVER_DESCRIPTIONS.lookup (stripTrailingS term)) "")⟩

/-- The server's network environment: the openFDA call's outcome per name. -/
structure ServerEnv where
  fda : String → Option (List String)

/-- `queryFDA` (lines 184-199): throws (`none`) on call failure or an empty
`results` list, else the processed terms. -/
def serverQueryFDA (env : ServerEnv) (name : String) : Option (List SideEffect) :=
  match env.fda name with
  | none => none
  | some results => if results.length = 0 then none else some (serverFdaProcess results)

/-- The `medication` field of the request body: absent/falsy, a non-string
value, or a string. -/
inductive ReqMed where
  | absent
  | notString
  | str (s : String)

/-- The handler's response. -/
inductive SEResp where
  | ok (sideEffects : List SideEffect)
  | badRequest
deriving DecidableEq, Repr

/-- `POST /api/side-effects` (src/server.js lines 176-212): validate, try
`queryFDA` on the trimmed name, then on the simplified name when it
differs, else answer with the sentinel.  There is no static-fallback-table
tier on the server. -/
def postSideEffects (env : ServerEnv) (req : ReqMed) : SEResp :=
  match req with
  | .absent => .badRequest
  | .notString => .badRequest
  | .str s =>
    if s = "" then .badRequest
    else if strTrim s = "" then .badRequest
    else
      match serverQueryFDA env (strTrim s) with
      | some l => .ok l
      | none =>
        match (if simplifyName (strTrim s) ≠ strTrim s
                then serverQueryFDA env (simplifyName (strTrim s)) else none) with
        | some l => .ok l
        | none =>
            .ok [⟨"No data found",
              "No adverse event reports for \"" ++ strTrim s ++ "\". Try the generic name."⟩]

/-- An environment in which every openFDA call fails. -/
def envNoFda : ServerEnv := ⟨fun _ => none⟩

/-- C7 counterexample: for `"sertraline"` with both openFDA calls failing,
the server responds with the sentinel, although the static fallback table
holds an entry for `"sertraline"` whose normalization is not the sentinel —
the server never consults the fallback table (tier 4), contradicting the
claimed tier order. -/
theorem postSideEffects_claim_cex :
    postSideEffects envNoFda (.str "sertraline")
      = .ok [⟨"No data found",
          "No adverse event reports for \"sertraline\". Try the generic name."⟩]
    ∧ (buildFromFallback "sertraline").isSome = true
    ∧ buildFromFallback "sertraline"
        ≠ some [⟨"No data found",
            "No adverse event reports for \"sertraline\". Try the generic name."⟩] :=
  ⟨rfl, rfl, by decide⟩

/-- C7 (amended): `POST /api/side-effects` responds 400 when the medication
field is absent, not a string, or blank after trimming; otherwise it
responds 200 with the result of tier 2 (direct openFDA on the trimmed
name), else tier 3 (openFDA on the simplified name when it differs), else
the sentinel naming the searched medication. -/
theorem postSideEffects_spec (env : ServerEnv) :
    (postSideEffects env .absent = .badRequest)
    ∧ (postSideEffects env .notString = .badRequest)
    ∧ (∀ s, strTrim s = "" → postSideEffects env (.str s) = .badRequest)
    ∧ (∀ s, s ≠ "" → strTrim s ≠ "" →
        ∀ l, serverQueryFDA env (strTrim s) = some l →
        postSideEffects env (.str s) = .ok l)
    ∧ (∀ s, s ≠ "" → strTrim s ≠ "" → serverQueryFDA env (strTrim s) = none →
        simplifyName (strTrim s) ≠ strTrim s →
        ∀ l, serverQueryFDA env (simplifyName (strTrim s)) = some l →
        postSideEffects env (.str s) = .ok l)
    ∧ (∀ s, s ≠ "" → strTrim s ≠ "" → serverQueryFDA env (strTrim s) = none →
        (simplifyName (strTrim s) = strTrim s
          ∨ serverQueryFDA env (simplifyName (strTrim s)) = none) →
        postSideEffects env (.str s)
          = .ok [⟨"No data found",
              "No adverse event reports for \"" ++ strTrim s ++ "\". Try the generic name."⟩]) := by
  refine ⟨rfl, rfl, ?_, ?_, ?_, ?_⟩
  ·   intro s hblank
      simp only [postSideEffects]
      by_cases hs : s = ""
      ·   rw [if_pos hs]
      ·   rw [if_neg hs, if_pos hblank]
  ·   intro s hs hblank l hq
      simp only [postSideEffects]
      rw [if_neg hs, if_neg hblank, hq]
  ·   intro s hs hblank hq1 hne l hq2
      simp only [postSideEffects]
      rw [if_neg hs, if_neg hblank, hq1, if_pos hne, hq2]
  ·   intro s hs hblank hq1 h3
      simp only [postSideEffects]
      rw [if_neg hs, if_neg hblank, hq1]
      have h3e : (if simplifyName (strTrim s) ≠ strTrim s
          then serverQueryFDA env (simplifyName (strTrim s)) else none) = none := by
        rcases h3 with h3 | h3
        ·   rw [if_neg (by simp [h3])]
        ·   by_cases hne : simplifyName (strTrim s) ≠ strTrim s
            ·   rw [if_pos hne]
                exact h3
            ·   rw [if_neg hne]
      rw [h3e]

/-- Witness for the amended C7 theorem: validation and the sentinel tier at
concrete inputs, with every network call failing. -/
theorem postSideEffects_spec_witness :
    postSideEffects envNoFda (.str "   ") = .badRequest
    ∧ postSideEffects envNoFda (.str "zzz")
        = .ok [⟨"No data found",
            "No adverse event reports for \"zzz\". Try the generic name."⟩] :=
  ⟨(postSideEffects_spec envNoFda).2.2.1 "   " rfl,
   (postSideEffects_spec envNoFda).2.2.2.2.2 "zzz" (by decide) (by decide) rfl
     (Or.inl rfl)⟩

/-! ## Client state mutations (src/unnamed/part_000 lines 372-424 and
519-521)

`update` (line 372) is `setState(prev => ({...prev, ...fn(prev)}))`: the new
document is the old one with exactly the keys of `fn(prev)` replaced.  Each
mutation operation passes an `fn` producing a single top-level key, so each
is the corresponding single-field update.  Inner objects are updated with
the spread `{...m, [k]: v}`: an existing key is replaced in place, a new key
is appended (JS string-key insertion order). -/

/-- `{...m, [k]: v}` on a string-keyed object as an ordered association
list. -/
def objSet {α : Type} (m : List (String × α)) (k : String) (v : α) : List (String × α) :=
  if m.any fun p => p.1 == k then
    m.map fun p => if p.1 == k then (p.1, v) else p
  else
    m ++ [(k, v)]

/-- `m[k] || dflt`. -/
def getOr {α : Type} (m : List (String × α)) (k : String) (dflt : α) : α :=
  (m.lookup k).getD dflt

inductive MetricKey where
  | general
  | energy
  | concentration
  | sleep
deriving DecidableEq, Repr

/-- `{...todayAssessment, [key]: val}`. -/
def setMetric (a : Assessment) : MetricKey → Nat → Assessment
  | .general, v => { a with general := v }
  | .energy, v => { a with energy := v }
  | .concentration, v => { a with concentration := v }
  | .sleep, v => { a with sleep := v }

/-- The default assessment `{general: 5, energy: 5, concentration: 5, sleep: 5}`
(line 374). -/
def defaultAssessment : Assessment := ⟨5, 5, 5, 5⟩

/-- `setAssessment` (lines 376-383). -/
def setAssessment (st : PatientState) (selectedDate : String) (key : MetricKey)
    (val : Nat) : PatientState :=
  { st with dailyAssessments := objSet st.dailyAssessments selectedDate (setMetric (getOr st.dailyAssessments selectedDate defaultAssessment) key val) }

/-- `setSeverity` (lines 415-422). -/
def setSeverity (st : PatientState) (selectedDate effect : String) (val : Nat) : PatientState :=
  { st with sideEffectSeverities := objSet st.sideEffectSeverities selectedDate (objSet (getOr st.sideEffectSeverities selectedDate []) effect val) }

/-- `setJournal` (line 520). -/
def setJournal (st : PatientState) (selectedDate v : String) : PatientState :=
  { st with journal := objSet st.journal selectedDate v }

/-- `setNotes` (line 521). -/
def setNotes (st : PatientState) (v : String) : PatientState :=
  { st with notes := v }

/-- `toggleTheme` (line 424). -/
def toggleTheme (st : PatientState) : PatientState :=
  { st with theme := if st.theme == "dark" then "light" else "dark" }

/-! ### `objSet` lookup characterization -/

theorem lookup_mapReplace {α : Type} (k : String) (v : α) (k2 : String) :
    ∀ (m : List (String × α)),
    (m.map fun p => if p.1 == k then (p.1, v) else p).lookup k2
      = match m.lookup k2 with
        | none => none
        | some w => if k2 = k then some v else some w
  | [] => rfl
  | (k1, w) :: rest => by
    by_cases h1 : k1 = k
    ·   have hb : (k1 == k) = true := by simp [h1]
        simp only [List.map_cons, hb, if_true]
        by_cases h2 : k2 = k1
        ·   have hb2 : (k2 == k1) = true := by simp [h2]
            simp only [List.lookup, hb2]
            rw [if_pos (h2.trans h1)]
        ·   have hb2 : (k2 == k1) = false := by simp [h2]
            simp only [List.lookup, hb2]
            exact lookup_mapReplace k v k2 rest
    ·   have hb : (k1 == k) = false := by simp [h1]
        simp only [List.map_cons, hb, if_false]
        by_cases h2 : k2 = k1
        ·   have hb2 : (k2 == k1) = true := by simp [h2]
            simp only [List.lookup, hb2]
            rw [if_neg (fun hc => h1 (h2.symm.trans hc))]
        ·   have hb2 : (k2 == k1) = false := by simp [h2]
            simp only [List.lookup, hb2]
            exact lookup_mapReplace k v k2 rest

theorem lookup_append_single {α : Type} (k : String) (v : α) (k2 : String) :
    ∀ (m : List (String × α)),
    (m ++ [(k, v)]).lookup k2
      = match m.lookup k2 with
        | some w => some w
        | none => if k2 = k then some v else none
  | [] => by
    by_cases h : k2 = k
    ·   have hb : (k2 == k) = true := by simp [h]
        simp [List.lookup, hb, h]
    ·   have hb : (k2 == k) = false := by simp [h]
        simp [List.lookup, hb, h]
  | (k1, w) :: rest => by
    by_cases h2 : k2 = k1
    ·   have hb2 : (k2 == k1) = true := by simp [h2]
        simp only [List.cons_append, List.lookup, hb2]
    ·   have hb2 : (k2 == k1) = false := by simp [h2]
        simp only [List.cons_append, List.lookup, hb2]
        exact lookup_append_single k v k2 rest

theorem any_key_lookup {α : Type} (k : String) :
    ∀ (m : List (String × α)),
    (m.any fun p => p.1 == k) = false → m.lookup k = none
  | [], _ => rfl
  | (k1, w) :: rest, h => by
    rw [List.any_cons, Bool.or_eq_false_iff] at h
    have h1 : k1 ≠ k := beq_eq_false_iff_ne.mp h.1
    have hb : (k == k1) = false := beq_eq_false_iff_ne.mpr fun hc => h1 hc.symm
    simp only [List.lookup, hb]
    exact any_key_lookup k rest h.2

theorem lookup_none_not_mem_key {α : Type} (k : String) :
    ∀ (m : List (String × α)), m.lookup k = none → ∀ p ∈ m, ¬ (p.1 = k)
  | [], _, p, hp => absurd hp (List.not_mem_nil p)
  | (k1, w) :: rest, h, p, hp => by
    by_cases hb : k = k1
    ·   have hbt : (k == k1) = true := by simp [hb]
        simp only [List.lookup, hbt] at h
        exact absurd h (by simp)
    ·   have hbf : (k == k1) = false := by simp [hb]
        simp only [List.lookup, hbf] at h
        rcases List.mem_cons.mp hp with heq | hp2
        ·   intro hc
            rw [heq] at hc
            exact hb hc.symm
        ·   exact lookup_none_not_mem_key k rest h p hp2

/-- The pointwise semantics of the spread update: the written key maps to
the new value, every other key is untouched. -/
theorem lookup_objSet {α : Type} (m : List (String × α)) (k : String) (v : α) (k2 : String) :
    (objSet m k v).lookup k2 = if k2 = k then some v else m.lookup k2 := by
  unfold objSet
  by_cases hany : (m.any fun p => p.1 == k) = true
  ·   rw [if_pos hany, lookup_mapReplace]
      by_cases h2 : k2 = k
      ·   rw [if_pos h2]
          subst h2
          cases hl : m.lookup k2 with
          | none =>
            exfalso
            rcases List.any_eq_true.mp hany with ⟨p, hp, hpk⟩
            rw [beq_iff_eq] at hpk
            exact lookup_none_not_mem_key k2 _ hl p hp hpk
          | some w => simp
      ·   rw [if_neg h2]
          cases hl : m.lookup k2 with
          | none => rfl
          | some w => simp [h2]
  ·   rw [if_neg hany, lookup_append_single]
      have hnone := any_key_lookup k m (Bool.of_not_eq_true hany)
      by_cases h2 : k2 = k
      ·   subst h2
          rw [hnone]
      ·   cases hl : m.lookup k2 with
          | none => simp [h2]
          | some w => simp [h2]

/-- C10: each client mutation changes only its own top-level field of the
document, and within a date-keyed map only the selected date's entry (and
for `setSeverity`, within that entry only the given effect's key); all
other fields and keys are unchanged. -/
theorem clientOps_frame :
    (∀ (st : PatientState) (d e : String) (v : Nat),
        (setSeverity st d e v).dailyAssessments = st.dailyAssessments
      ∧ (setSeverity st d e v).medications = st.medications
      ∧ (setSeverity st d e v).journal = st.journal
      ∧ (setSeverity st d e v).notes = st.notes
      ∧ (setSeverity st d e v).theme = st.theme
      ∧ (∀ d2, d2 ≠ d →
          (setSeverity st d e v).sideEffectSeverities.lookup d2
            = st.sideEffectSeverities.lookup d2)
      ∧ (setSeverity st d e v).sideEffectSeverities.lookup d
          = some (objSet (getOr st.sideEffectSeverities d []) e v)
      ∧ (∀ e2, e2 ≠ e →
          (objSet (getOr st.sideEffectSeverities d []) e v).lookup e2
            = (getOr st.sideEffectSeverities d []).lookup e2))
    ∧ (∀ (st : PatientState) (d : String) (key : MetricKey) (v : Nat),
        (setAssessment st d key v).medications = st.medications
      ∧ (setAssessment st d key v).sideEffectSeverities = st.sideEffectSeverities
      ∧ (setAssessment st d key v).journal = st.journal
      ∧ (setAssessment st d key v).notes = st.notes
      ∧ (setAssessment st d key v).theme = st.theme
      ∧ (∀ d2, d2 ≠ d →
          (setAssessment st d key v).dailyAssessments.lookup d2
            = st.dailyAssessments.lookup d2))
    ∧ (∀ (st : PatientState) (d v : String),
        (setJournal st d v).dailyAssessments = st.dailyAssessments
      ∧ (setJournal st d v).medications = st.medications
      ∧ (setJournal st d v).sideEffectSeverities = st.sideEffectSeverities
      ∧ (setJournal st d v).notes = st.notes
      ∧ (setJournal st d v).theme = st.theme
      ∧ (∀ d2, d2 ≠ d → (setJournal st d v).journal.lookup d2 = st.journal.lookup d2))
    ∧ (∀ (st : PatientState) (v : String),
        (setNotes st v).dailyAssessments = st.dailyAssessments
      ∧ (setNotes st v).medications = st.medications
      ∧ (setNotes st v).sideEffectSeverities = st.sideEffectSeverities
      ∧ (setNotes st v).journal = st.journal
      ∧ (setNotes st v).theme = st.theme)
    ∧ (∀ (st : PatientState),
        (toggleTheme st).dailyAssessments = st.dailyAssessments
      ∧ (toggleTheme st).medications = st.medications
      ∧ (toggleTheme st).sideEffectSeverities = st.sideEffectSeverities
      ∧ (toggleTheme st).journal = st.journal
      ∧ (toggleTheme st).notes = st.notes) := by
  refine ⟨?_, ?_, ?_, ?_, ?_⟩
  ·   intro st d e v
      refine ⟨rfl, rfl, rfl, rfl, rfl, ?_, ?_, ?_⟩
      ·   intro d2 hd2
          show (objSet st.sideEffectSeverities d
              (objSet (getOr st.sideEffectSeverities d []) e v)).lookup d2 = _
          rw [lookup_objSet, if_neg hd2]
      ·   show (objSet st.sideEffectSeverities d
              (objSet (getOr st.sideEffectSeverities d []) e v)).lookup d = _
          rw [lookup_objSet, if_pos rfl]
      ·   intro e2 he2
          rw [lookup_objSet, if_neg he2]
  ·   intro st d key v
      refine ⟨rfl, rfl, rfl, rfl, rfl, ?_⟩
      intro d2 hd2
      show (objSet st.dailyAssessments d
          (setMetric (getOr st.dailyAssessments d defaultAssessment) key v)).lookup d2 = _
      rw [lookup_objSet, if_neg hd2]
  ·   intro st d v
      refine ⟨rfl, rfl, rfl, rfl, rfl, ?_⟩
      intro d2 hd2
      show (objSet st.journal d v).lookup d2 = _
      rw [lookup_objSet, if_neg hd2]
  ·   intro st v
      exact ⟨rfl, rfl, rfl, rfl, rfl⟩
  ·   intro st
      exact ⟨rfl, rfl, rfl, rfl, rfl⟩

/-- A concrete state for the frame-condition witness. -/
def wSt : PatientState :=
  ⟨[("2024-01-01", ⟨1, 2, 3, 4⟩)], [], [("2024-01-01", [("Nausea", 3)])],
   [("2024-01-01", "hi")], "note", "light"⟩

/-- Witness for C10 at concrete inputs. -/
theorem clientOps_frame_witness :
    (setSeverity wSt "2024-01-02" "Headache" 4).medications = wSt.medications
    ∧ (setSeverity wSt "2024-01-02" "Headache" 4).sideEffectSeverities.lookup "2024-01-01"
        = wSt.sideEffectSeverities.lookup "2024-01-01"
    ∧ (setAssessment wSt "2024-01-01" .general 9).dailyAssessments.lookup "2024-01-02"
        = wSt.dailyAssessments.lookup "2024-01-02"
    ∧ (setJournal wSt "2024-01-01" "x").notes = wSt.notes
    ∧ (toggleTheme wSt).journal = wSt.journal :=
  ⟨(clientOps_frame.1 wSt "2024-01-02" "Headache" 4).2.1,
   (clientOps_frame.1 wSt "2024-01-02" "Headache" 4).2.2.2.2.2.1 "2024-01-01" (by decide),
   (clientOps_frame.2.1 wSt "2024-01-01" .general 9).2.2.2.2.2 "2024-01-02" (by decide),
   (clientOps_frame.2.2.1 wSt "2024-01-01" "x").2.2.2.1,
   (clientOps_frame.2.2.2.2 wSt).2.2.2.1⟩

end Welltrack
